import Mathlib

/-!
A shallow embedding of `stackapi/stackapi.py` (the StackAPI client for the
Stack Exchange API), together with proofs about its fetch/paginate/error
pipeline.

The embedding models:
* JSON-like values (`JVal`) and Python dictionary operations;
* the Python runtime behaviours the source relies on: `d[k]` lookup
  (`KeyError`/`TypeError`), truthiness, `int(...)`, `x + 1`, iteration,
  `';'.join(str(x) for x in ...)`;
* `StackAPI.fetch` (the pagination loop, lines 153-242 of the source),
  `StackAPI.send_data` (lines 299-350) and `StackAPI.__init__`
  (lines 67-90).

The HTTP transport and JSON parsing are external capabilities in the source
(`requests.get/post`, `response.json()`); they are modelled by an oracle
`server : Nat → Transport` giving the outcome of the k-th request of a call.
Observable effects (one GET per loop iteration, plus an optional
`time.sleep`) are recorded as a list of `Step` records, in order.
-/

set_option autoImplicit false

namespace SA

/-- JSON-like values, as produced by `response.json()`. -/
inductive JVal where
  | null
  | bool (b : Bool)
  | num (n : Int)
  | str (s : String)
  | arr (xs : List JVal)
  | obj (fields : List (String × JVal))

/-- Python dictionaries with string keys, as association lists.
Keys are unique in any dictionary produced by the Python runtime; the
operations below agree with Python semantics on such lists. -/
abbrev Dict := List (String × JVal)

/-- First-match lookup, `d.get(k)` / `d[k]` on a dict. -/
def dlookup : Dict → String → Option JVal
  | [], _ => none
  | (k', v) :: rest, k => if k' = k then some v else dlookup rest k

/-- `d.pop(k, None)`: remove the key `k`. -/
def derase (d : Dict) (k : String) : Dict :=
  d.filter (fun p => p.1 ≠ k)

/-- `d[k] = v`: set key `k` to `v`. (Insertion-order of a Python dict is not
preserved here; no proved property inspects ordering of dict entries.) -/
def dset (d : Dict) (k : String) (v : JVal) : Dict :=
  derase d k ++ [(k, v)]

/-- `d.update(q)`: set every entry of `q` in `d`. -/
def dupdate (d : Dict) (q : Dict) : Dict :=
  q.foldl (fun acc p => dset acc p.1 p.2) d

/-- Python exceptions that the source can raise. -/
inductive PyErr where
  /-- `StackAPIError(url, error, code, message)` from the source. -/
  | stackAPIError (url : Option String) (error : JVal) (code : JVal) (message : JVal)
  /-- Uncaught `KeyError` from a dict subscript. -/
  | keyError (k : String)
  /-- Uncaught `TypeError` (bad subscript / non-iterable / bad `+`). -/
  | typeError
  /-- `ValueError` (bad endpoint, bad `int(...)`, negative sleep,
  or an uncaught JSON decode error in `send_data`). -/
  | valueError (msg : String)
  /-- Uncaught `requests.exceptions.ConnectionError` (only reachable from
  `send_data`, which does not wrap transport failures). -/
  | connectionError (msg : String)
  /-- Uncaught `IndexError` (`data[-1]` on an empty list; dead in practice). -/
  | indexError

/-- Python truthiness of a JSON value. -/
def truthy : JVal → Bool
  | .null => false
  | .bool b => b
  | .num n => n ≠ 0
  | .str s => s ≠ ""
  | .arr xs => !xs.isEmpty
  | .obj fs => !fs.isEmpty

/-- Python `v[k]` with a string subscript: `KeyError` on a dict without the
key, `TypeError` on any non-dict value. -/
def pyGetItem (v : JVal) (k : String) : Except PyErr JVal :=
  match v with
  | .obj fs =>
    match dlookup fs k with
    | some w => .ok w
    | none => .error (.keyError k)
  | _ => .error .typeError

/-- Python `k in v` for a string `k`: key test on dicts, membership on lists,
substring test on strings, `TypeError` otherwise. -/
def pyContains (v : JVal) (k : String) : Except PyErr Bool :=
  match v with
  | .obj fs => .ok (dlookup fs k).isSome
  | .arr xs => .ok (xs.any (fun x => match x with | .str s => s = k | _ => false))
  | .str s => .ok ((s.toList.tails).any (fun t => k.toList.isPrefixOf t))
  | _ => .error .typeError

/-- Python iteration `for x in v` collected to a list: lists iterate their
elements, strings their characters, dicts their keys; other values raise
`TypeError`. -/
def pyIter (v : JVal) : Except PyErr (List JVal) :=
  match v with
  | .arr xs => .ok xs
  | .str s => .ok (s.toList.map (fun c => .str c.toString))
  | .obj fs => .ok (fs.map (fun p => .str p.1))
  | _ => .error .typeError

/-- Python `int(v)`. (`int` of a string is modelled by `String.toInt?`,
which covers the decimal literals the API sends.) -/
def pyInt (v : JVal) : Except PyErr Int :=
  match v with
  | .num n => .ok n
  | .bool b => .ok (if b then 1 else 0)
  | .str s =>
    match s.toInt? with
    | some n => .ok n
    | none => .error (.valueError "invalid literal for int")
  | _ => .error .typeError

/-- Python `v + 1`, used by `params["page"] += 1`. `True + 1 = 2`; all other
non-numeric values raise `TypeError`. -/
def pyAdd1 (v : JVal) : Except PyErr JVal :=
  match v with
  | .num n => .ok (.num (n + 1))
  | .bool b => .ok (.num ((if b then 1 else 0) + 1))
  | _ => .error .typeError

/-- Python `str(v)`, as used by `';'.join(str(x) for x in ids)`. The `ids`
lists sent to the API hold numbers and strings; the textual form of nested
containers is not reproduced. -/
def pyStr : JVal → String
  | .null => "None"
  | .bool b => if b then "True" else "False"
  | .num n => toString n
  | .str s => s
  | .arr _ => "<list>"
  | .obj _ => "<dict>"

/-- Python `name == v` where `name` is a string. -/
def pyEqStr (name : String) (v : JVal) : Bool :=
  match v with
  | .str s => name = s
  | _ => false

/-- Outcome of parsing an HTTP response body (`response.json()`). -/
inductive ParseOut where
  | fail (msg : String)
  | ok (v : JVal)

/-- Outcome of one HTTP request: either `requests` raised a
`ConnectionError`, or a response arrived with a final URL and a body. -/
inductive Transport where
  | connError (msg : String)
  | ok (finalUrl : String) (body : ParseOut)

/-- The client object: the attributes set by `StackAPI.__init__`.
Fields named `api_endpoint`, `api_key`, `name`, `version`, `previous_call`
and `base_url` model the source attributes `_endpoint`, `_api_key`, `_name`,
`_version`, `_previous_call` and `_base_url`. -/
structure StackAPI where
  proxy : Option JVal
  max_pages : Nat
  page_size : Int
  key : Option JVal
  access_token : Option JVal
  api_endpoint : Option String
  api_key : Option JVal
  name : Option JVal
  version : String
  previous_call : Option String
  base_url : String

/-- Observable record of one loop iteration: the GET issued (URL and query
parameters) and, when `time.sleep` ran after that page, the slept amount. -/
structure Step where
  url : String
  params : Dict
  slept : Option Int

/-- The loop-local mutable state of `fetch`: `self._previous_call`,
`params`, `data`, `backoff`, `total`. -/
structure LoopSt where
  previous_call : Option String
  params : Dict
  data : List JVal
  backoff : Int
  total : JVal

/-- The dictionary returned by a successful `fetch`. -/
structure FetchResult where
  backoff : Int
  has_more : JVal
  page : JVal
  quota_max : JVal
  quota_remaining : JVal
  total : JVal
  items : List JVal

/-- Full outcome of a `fetch` call: the requests issued (with sleeps), the
client state after the call, and the returned value or raised exception. -/
structure FetchOut where
  steps : List Step
  state : StackAPI
  result : Except PyErr FetchResult

/-- The dictionary returned by a successful `send_data` (no `backoff` or
`total` key). -/
structure SendResult where
  has_more : JVal
  page : JVal
  quota_max : JVal
  quota_remaining : JVal
  items : List JVal

/-- Full outcome of a `send_data` call. -/
structure SendOut where
  steps : List Step
  state : StackAPI
  result : Except PyErr SendResult

/-- Source lines 201-207: look up `error_id`, `error_name`, `error_message`
and raise `StackAPIError` with them; a `KeyError` from any of the three
lookups is swallowed (`except KeyError: pass`), while a `TypeError` (body is
not a dict) propagates. So the error is raised only when all three fields
are present. -/
def errorCheck (resp : JVal) (prev : Option String) : Option PyErr :=
  match pyGetItem resp "error_id" with
  | .error (.keyError _) => none
  | .error e => some e
  | .ok ev =>
    match pyGetItem resp "error_name" with
    | .error (.keyError _) => none
    | .error e => some e
    | .ok cv =>
      match pyGetItem resp "error_message" with
      | .error (.keyError _) => none
      | .error e => some e
      | .ok mv => some (.stackAPIError prev ev cv mv)

/-- Source lines 169-172 / 315-319: when `kwargs` has an `ids` entry, join
the ids with `;` (`';'.join(str(x) for x in kwargs['ids'])`) and pop the
entry; a non-iterable `ids` value raises `TypeError`. -/
def idsJoin (kwargs : Dict) : Except PyErr (Option String × Dict) :=
  match dlookup kwargs "ids" with
  | none => .ok (none, kwargs)
  | some v =>
    match pyIter v with
    | .error e => .error e
    | .ok xs => .ok (some (String.intercalate ";" (xs.map pyStr)), derase kwargs "ids")

/-- Result of one iteration of the `while` loop in `fetch`: either the loop
ends (by `break`, or by an exception carried in the `Option PyErr`), or it
continues with an updated state. -/
inductive IterOut where
  | stop (step : Step) (s : LoopSt) (err : Option PyErr)
  | next (step : Step) (s : LoopSt)

/-- Source lines 225-228: `if 'has_more' in response and response['has_more']:
params["page"] += 1` then continue, `else: break`. -/
def afterTotal (resp : JVal) (step : Step) (s : LoopSt) : IterOut :=
  match pyContains resp "has_more" with
  | .error e => .stop step s (some e)
  | .ok hm =>
    if hm then
      match pyGetItem resp "has_more" with
      | .error e => .stop step s (some e)
      | .ok hv =>
        if truthy hv then
          match dlookup s.params "page" with
          | none => .stop step s (some (.keyError "page"))
          | some pv =>
            match pyAdd1 pv with
            | .error e => .stop step s (some e)
            | .ok pv2 => .next step { s with params := dset s.params "page" pv2 }
        else .stop step s none
    else .stop step s none

/-- Source lines 223-224: `if 'total' in response: total = response['total']`. -/
def afterBackoff (resp : JVal) (step : Step) (s : LoopSt) : IterOut :=
  match pyContains resp "total" with
  | .error e => .stop step s (some e)
  | .ok ht =>
    if ht then
      match pyGetItem resp "total" with
      | .error e => .stop step s (some e)
      | .ok tv => afterTotal resp step { s with total := tv }
    else afterTotal resp step s

/-- Source lines 217-222: reset `backoff = 0; total = 0` (the rebinding of
the local `page` to 1 on line 219 is dead and has no observable effect),
then `if 'backoff' in response: backoff = int(response['backoff']);
sleep(backoff+1)`. `time.sleep` raises `ValueError` on a negative amount. -/
def afterAppend (resp : JVal) (step : Step) (s : LoopSt) : IterOut :=
  let s1 := { s with backoff := 0, total := JVal.num 0 }
  match pyContains resp "backoff" with
  | .error e => .stop step s1 (some e)
  | .ok hb =>
    if hb then
      match pyGetItem resp "backoff" with
      | .error e => .stop step s1 (some e)
      | .ok bv =>
        match pyInt bv with
        | .error e => .stop step s1 (some e)
        | .ok b =>
          if b + 1 < 0 then
            .stop step s1 (some (.valueError "sleep length must be non-negative"))
          else
            afterBackoff resp { step with slept := some (b + 1) } { s1 with backoff := b }
    else afterBackoff resp step s1

/-- Source lines 201-215: the error check, then `data.append(response[key])`
or `data.append(response)` (the `if len(data) < 1: break` guard on line 214
is dead: `data` was just appended to), then the backoff/total/has_more
handling. -/
def iterBody (resp : JVal) (key : Option String) (step : Step) (s : LoopSt) : IterOut :=
  match errorCheck resp s.previous_call with
  | some err => .stop step s (some err)
  | none =>
    match (match key with | none => Except.ok resp | some kk => pyGetItem resp kk) with
    | .error e => .stop step s (some e)
    | .ok appended => afterAppend resp step { s with data := s.data ++ [appended] }

/-- Source lines 185-228: one full iteration of the `while` loop. A
`ConnectionError` is wrapped as `StackAPIError` with the *previous* call URL
and the error text in all three error fields (lines 191-192); after a
response arrives `self._previous_call` is set to its URL (line 194); a JSON
decode failure is wrapped likewise with the fresh URL (lines 198-199). -/
def iterOnce (t : Transport) (url : String) (key : Option String) (s : LoopSt) : IterOut :=
  let step : Step := ⟨url, s.params, none⟩
  match t with
  | .connError msg =>
    .stop step s (some (.stackAPIError s.previous_call (.str msg) (.str msg) (.str msg)))
  | .ok finalUrl body =>
    let s1 := { s with previous_call := some finalUrl }
    match body with
    | .fail msg =>
      .stop step s1 (some (.stackAPIError (some finalUrl) (.str msg) (.str msg) (.str msg)))
    | .ok v => iterBody v key step s1

/-- Source lines 182-228: `run_cnt = 0; while run_cnt <= self.max_pages:
run_cnt += 1; ...`. The counter is checked before being incremented, so the
body runs for the counter values `0, 1, ..., max_pages`: the fuel below
starts at `max_pages + 1`. `i` is the index of the next request, fed to the
server oracle. -/
def fetchLoop (server : Nat → Transport) (url : String) (key : Option String) :
    Nat → Nat → LoopSt → List Step × LoopSt × Option PyErr
  | 0, _, s => ([], s, none)
  | fuel + 1, i, s =>
    match iterOnce (server i) url key s with
    | .stop stp s' e => ([stp], s', e)
    | .next stp s' =>
      match fetchLoop server url key fuel (i + 1) s' with
      | (steps, s'', e) => (stp :: steps, s'', e)

/-- `params['page']` as an expression (`KeyError` when absent). -/
def dictGet (d : Dict) (k : String) : Except PyErr JVal :=
  match dlookup d k with
  | some v => .ok v
  | none => .error (.keyError k)

/-- Source lines 231-233: `r = []; for d in data: r.extend(d['items'])`.
A `KeyError` (missing `items`) or `TypeError` (non-iterable `items`) from an
earlier page surfaces before one from a later page. -/
def collectItems : List JVal → Except PyErr (List JVal)
  | [] => .ok []
  | d :: ds =>
    match pyGetItem d "items" with
    | .error e => .error e
    | .ok iv =>
      match pyIter iv with
      | .error e => .error e
      | .ok xs =>
        match collectItems ds with
        | .error e => .error e
        | .ok rest => .ok (xs ++ rest)

/-- Source lines 231-240: the post-loop assembly of the result dictionary.
Failure points in the source order: a missing `items` key on any appended
page, `data[-1]` on an empty list, then missing `has_more` / `quota_max` /
`quota_remaining` on the last appended page. -/
def assemble (s : LoopSt) : Except PyErr FetchResult :=
  match collectItems s.data with
  | .error e => .error e
  | .ok r =>
    match s.data.getLast? with
    | none => .error .indexError
    | some lastd =>
      match pyGetItem lastd "has_more" with
      | .error e => .error e
      | .ok hm =>
        match dictGet s.params "page" with
        | .error e => .error e
        | .ok pg =>
          match pyGetItem lastd "quota_max" with
          | .error e => .error e
          | .ok qm =>
            match pyGetItem lastd "quota_remaining" with
            | .error e => .error e
            | .ok qr => .ok ⟨s.backoff, hm, pg, qm, qr, s.total, r⟩

/-- Source lines 158-176 and 304-323 (the construction is duplicated
verbatim in `fetch` and `send_data`): base parameters `pagesize`, `page`,
`filter`; then `key` and `access_token` when truthy; then the caller's
remaining keyword arguments (after `ids` has been popped); then `site` when
the client is site-bound (`self._api_key` truthy). -/
def buildParams (st : StackAPI) (page : Int) (filter : String) (kwargs2 : Dict) : Dict :=
  let params0 : Dict := [("pagesize", .num st.page_size), ("page", .num page),
                         ("filter", .str filter)]
  let params1 := match st.key with
    | some v => if truthy v then dset params0 "key" v else params0
    | none => params0
  let params2 := match st.access_token with
    | some v => if truthy v then dset params1 "access_token" v else params1
    | none => params1
  let params3 := dupdate params2 kwargs2
  match st.api_key with
  | some v => if truthy v then dset params3 "site" v else params3
  | none => params3

/-- Source lines 98-242: `StackAPI.fetch`. Builds the query parameters
(lines 158-176), splices `ids` into the URL path (lines 169-172, 186-187),
runs the pagination loop, and assembles the result. -/
def fetch (st : StackAPI) (server : Nat → Transport) (endpoint : String) (page : Int)
    (key : Option String) (filter : String) (kwargs : Dict) : FetchOut :=
  if endpoint = "" then ⟨[], st, .error (.valueError "No end point provided.")⟩
  else
    let st1 := { st with api_endpoint := some endpoint }
    match idsJoin kwargs with
    | .error e => ⟨[], st1, .error e⟩
    | .ok (idsOpt, kwargs2) =>
      let params4 := buildParams st page filter kwargs2
      let url := st.base_url ++ endpoint ++ "/" ++ idsOpt.getD ""
      match fetchLoop server url key (st.max_pages + 1) 0
              ⟨st.previous_call, params4, [], 0, .num 0⟩ with
      | (steps, s1, e) =>
        let st2 := { st1 with previous_call := s1.previous_call }
        match e with
        | some err => ⟨steps, st2, .error err⟩
        | none =>
          match assemble s1 with
          | .error err => ⟨steps, st2, .error err⟩
          | .ok res => ⟨steps, st2, .ok res⟩

/-- Source lines 341-348: assembly of the `send_data` result from the single
response (`data = [response]`). -/
def sendAssemble (resp : JVal) (params : Dict) : Except PyErr SendResult :=
  match pyGetItem resp "items" with
  | .error e => .error e
  | .ok iv =>
    match pyIter iv with
    | .error e => .error e
    | .ok xs =>
      match pyGetItem resp "has_more" with
      | .error e => .error e
      | .ok hm =>
        match dictGet params "page" with
        | .error e => .error e
        | .ok pg =>
          match pyGetItem resp "quota_max" with
          | .error e => .error e
          | .ok qm =>
            match pyGetItem resp "quota_remaining" with
            | .error e => .error e
            | .ok qr => .ok ⟨hm, pg, qm, qr, xs⟩

/-- Source lines 244-350: `StackAPI.send_data`. Parameter construction is
identical to `fetch` (including popping `ids` from `kwargs`), but the joined
ids string is never appended to the URL (line 327 rebuilds the URL without
it), exactly one POST is issued, and neither the transport call nor the body
parse is wrapped in a try/except: a `ConnectionError` or JSON decode
`ValueError` propagates unwrapped. The `key` parameter is accepted but
unused by the source. -/
def send_data (st : StackAPI) (t : Transport) (endpoint : String) (page : Int)
    (key : Option String) (filter : String) (kwargs : Dict) : SendOut :=
  if endpoint = "" then ⟨[], st, .error (.valueError "No end point provided.")⟩
  else
    let st1 := { st with api_endpoint := some endpoint }
    match idsJoin kwargs with
    | .error e => ⟨[], st1, .error e⟩
    | .ok (_idsOpt, kwargs2) =>
      let params4 := buildParams st page filter kwargs2
      let url := st.base_url ++ endpoint ++ "/"
      let step : Step := ⟨url, params4, none⟩
      match t with
      | .connError msg => ⟨[step], st1, .error (.connectionError msg)⟩
      | .ok finalUrl body =>
        let st2 := { st1 with previous_call := some finalUrl }
        match body with
        | .fail msg => ⟨[step], st2, .error (.valueError msg)⟩
        | .ok resp =>
          match errorCheck resp st2.previous_call with
          | some err => ⟨[step], st2, .error err⟩
          | none =>
            match sendAssemble resp params4 with
            | .error err => ⟨[step], st2, .error err⟩
            | .ok res => ⟨[step], st2, .ok res⟩

/-- Source lines 83-87: `for s in sites['items']: if name ==
s['api_site_parameter']: self._name = s['name']; self._api_key =
s['api_site_parameter']; break`. Returns the `(name, api_site_parameter)`
pair of the first matching entry, or `none` when no entry matches; a missing
`api_site_parameter` key (or, on the match, a missing `name` key) raises. -/
def scanSites (name : String) : List JVal → Except PyErr (Option (JVal × JVal))
  | [] => .ok none
  | s :: rest =>
    match pyGetItem s "api_site_parameter" with
    | .error e => .error e
    | .ok p =>
      if pyEqStr name p then
        match pyGetItem s "name" with
        | .error e => .error e
        | .ok nm => .ok (some (nm, p))
      else scanSites name rest

/-- Source lines 39-90: `StackAPI.__init__`. The truthiness-based defaulting
of the keyword arguments (lines 70-74) is resolved by the caller of this
definition; the site lookup issues a real `fetch` against the `sites`
endpoint with the fixed compact filter and then scans the items. A falsy
resolved `_name` (no match, or a matched entry whose `name` is falsy) raises
`ValueError('Invalid Site Name provided')` (lines 89-90). -/
def initStackAPI (server : Nat → Transport) (name : String) (version : String)
    (proxy : Option JVal) (max_pages : Nat) (page_size : Int)
    (key : Option JVal) (access_token : Option JVal) : Except PyErr StackAPI :=
  if name = "" then .error (.valueError "No Site Name provided")
  else
    let st0 : StackAPI := ⟨proxy, max_pages, page_size, key, access_token,
      none, none, none, version, none,
      "https://api.stackexchange.com/" ++ version ++ "/"⟩
    let out := fetch st0 server "sites" 1 none "!*L1*AY-85YllAr2)" []
    match out.result with
    | .error e => .error e
    | .ok sites =>
      match scanSites name sites.items with
      | .error e => .error e
      | .ok none => .error (.valueError "Invalid Site Name provided")
      | .ok (some (nm, p)) =>
        if truthy nm then .ok { out.state with name := some nm, api_key := some p }
        else .error (.valueError "Invalid Site Name provided")

/-! ### Observation functions

These read off, from the server oracle, the quantities the theorems talk
about: the parsed body of a response, the appended datum, and the
`backoff`/`total`/`has_more` fields.  Where a theorem's hypotheses guarantee
the underlying operation succeeded, the `getD` defaults are never hit. -/

/-- `Except` to `Option`. -/
def eToOption {α : Type} : Except PyErr α → Option α
  | .ok a => some a
  | .error _ => none

/-- The parsed body of a response, when the transport and parse succeeded. -/
def respOf : Transport → Option JVal
  | .ok _ (.ok v) => some v
  | _ => none

/-- Field lookup on a JSON value (dicts only). -/
def jLookup : JVal → String → Option JVal
  | .obj fs, k => dlookup fs k
  | _, _ => none

/-- The datum `fetch` appends for a response: the whole body, or the value
under the sub-key when one was given (source lines 209-212). -/
def appendedD (key : Option String) (t : Transport) : JVal :=
  match respOf t, key with
  | some v, none => v
  | some v, some kk => ((eToOption (pyGetItem v kk)).getD .null)
  | none, _ => .null

/-- `int(response['backoff'])` of a response, when present and convertible. -/
def backoffValT (t : Transport) : Option Int :=
  ((respOf t).bind (fun v => jLookup v "backoff")).bind (fun bv => eToOption (pyInt bv))

/-- `response['total']` of a response, when present. -/
def totalT (t : Transport) : Option JVal :=
  (respOf t).bind (fun v => jLookup v "total")

/-- Whether `'has_more' in response and response['has_more']` holds. -/
def hasMoreT (t : Transport) : Bool :=
  match (respOf t).bind (fun v => jLookup v "has_more") with
  | some v => truthy v
  | none => false

/-- The items list of an appended datum (`d['items']`, iterated). -/
def itemsD (d : JVal) : List JVal :=
  match pyGetItem d "items" with
  | .ok iv => (eToOption (pyIter iv)).getD []
  | .error _ => []

/-- `params["page"] += 1` as a forcing function on the looked-up value. -/
def pyAdd1D (o : Option JVal) : JVal :=
  match o with
  | some v => (eToOption (pyAdd1 v)).getD .null
  | none => .null

/-- String suffix test (list-based, so that it evaluates by `rfl`). -/
def strEndsWith (s suffixStr : String) : Bool :=
  suffixStr.toList.isSuffixOf s.toList

/-! ### Concrete fixtures used by counterexamples and witnesses -/

/-- A client bound to Stack Overflow with `max_pages = 3`. -/
def stEx : StackAPI :=
  ⟨none, 3, 100, none, none, none, some (.str "stackoverflow"),
   some (.str "Stack Overflow"), "2.2", none, "https://api.stackexchange.com/2.2/"⟩

/-- `stEx` with `max_pages = 1`. -/
def stMP1 : StackAPI := { stEx with max_pages := 1 }

/-- A page that always has more results. -/
def pageMore : Dict :=
  [("items", .arr [.num 1]), ("has_more", .bool true),
   ("quota_max", .num 10), ("quota_remaining", .num 9)]

/-- A server that always returns `pageMore`. -/
def serverMore : Nat → Transport :=
  fun _ => .ok "https://final/" (.ok (.obj pageMore))

/-- A final page: two items, `has_more` false. -/
def pageDone : Dict :=
  [("items", .arr [.num 5, .num 6]), ("has_more", .bool false),
   ("quota_max", .num 10), ("quota_remaining", .num 9)]

/-- A server that returns `pageDone` to every request. -/
def serverDone : Nat → Transport :=
  fun _ => .ok "https://final/" (.ok (.obj pageDone))

/-- Two pages: the first with `has_more` true and a `backoff` of 2 and a
`total`, the second final. -/
def pageFirst : Dict :=
  [("items", .arr [.num 1, .num 2]), ("has_more", .bool true),
   ("backoff", .num 2), ("total", .num 7),
   ("quota_max", .num 10), ("quota_remaining", .num 9)]

/-- A two-page server: `pageFirst` then `pageDone`. -/
def serverTwo : Nat → Transport :=
  fun i => if i = 0 then .ok "https://p1/" (.ok (.obj pageFirst))
           else .ok "https://p2/" (.ok (.obj pageDone))

/-- A body that carries `error_id` but neither `error_name` nor
`error_message`, and is otherwise a well-formed final page. -/
def pageErrIdOnly : Dict :=
  [("error_id", .num 400), ("items", .arr []), ("has_more", .bool false),
   ("quota_max", .num 10), ("quota_remaining", .num 9)]

/-- A server that always returns `pageErrIdOnly`. -/
def serverErrIdOnly : Nat → Transport :=
  fun _ => .ok "https://err/" (.ok (.obj pageErrIdOnly))

/-- A page with no `error_id` and no `has_more` (and `items` present). -/
def pageNoHasMore : Dict :=
  [("items", .arr []), ("quota_max", .num 1), ("quota_remaining", .num 1)]

/-- A server that always returns `pageNoHasMore`. -/
def serverNoHasMore : Nat → Transport :=
  fun _ => .ok "https://nhm/" (.ok (.obj pageNoHasMore))

/-- A sites-directory entry whose `api_site_parameter` is `meta` but whose
`name` is the empty string (falsy). -/
def entryFalsyName : Dict :=
  [("api_site_parameter", .str "meta"), ("name", .str "")]

/-- A sites listing containing only `entryFalsyName`. -/
def serverSitesFalsy : Nat → Transport :=
  fun _ => .ok "https://sites/" (.ok (.obj
    [("items", .arr [.obj entryFalsyName]), ("has_more", .bool false),
     ("quota_max", .num 10), ("quota_remaining", .num 9)]))

/-- A well-formed sites listing with one entry for Stack Overflow. -/
def entrySO : Dict :=
  [("api_site_parameter", .str "stackoverflow"), ("name", .str "Stack Overflow")]

/-- A server for the sites listing with the single entry `entrySO`. -/
def serverSitesSO : Nat → Transport :=
  fun _ => .ok "https://sites/" (.ok (.obj
    [("items", .arr [.obj entrySO]), ("has_more", .bool false),
     ("quota_max", .num 10), ("quota_remaining", .num 9)]))

/-- A body carrying the full error triple (and nothing else). -/
def pageErrTrio : Dict :=
  [("error_id", .num 404), ("error_name", .str "not_found"),
   ("error_message", .str "bad method")]

/-- A server that always returns `pageErrTrio`. -/
def serverErrTrio : Nat → Transport :=
  fun _ => .ok "https://err/" (.ok (.obj pageErrTrio))

/-- `int(response['backoff'])` observation on a dict body. -/
def bkOf (fs : List (String × JVal)) : Option Int :=
  (dlookup fs "backoff").bind (fun bv => eToOption (pyInt bv))

/-- `has_more` truthiness observation on a dict body. -/
def hasMoreJ (fs : List (String × JVal)) : Bool :=
  (dlookup fs "has_more").elim false truthy


/-! ### Dictionary lemmas -/

theorem dlookup_append (d1 d2 : Dict) (k : String) :
    dlookup (d1 ++ d2) k = match dlookup d1 k with
      | some v => some v
      | none => dlookup d2 k := by
  induction d1 with
  | nil => simp [dlookup]
  | cons p rest ih =>
    by_cases hp : p.1 = k <;> simp [dlookup, hp, ih]

theorem dlookup_derase_self (d : Dict) (k : String) :
    dlookup (derase d k) k = none := by
  induction d with
  | nil => simp [derase, dlookup]
  | cons p rest ih =>
    simp only [derase, ne_eq, decide_not] at ih ⊢
    rw [List.filter_cons]
    by_cases hp : p.1 = k
    · simpa [hp] using ih
    · simpa [hp, dlookup] using ih

theorem dlookup_derase_ne (d : Dict) (k k' : String) (h : k' ≠ k) :
    dlookup (derase d k) k' = dlookup d k' := by
  induction d with
  | nil => simp [derase]
  | cons p rest ih =>
    simp only [derase, ne_eq, decide_not] at ih ⊢
    rw [List.filter_cons]
    by_cases hp : p.1 = k
    · have hpk' : ¬p.1 = k' := fun hh => h (hh.symm.trans hp)
      simp [hp, dlookup, hpk', ih, Ne.symm h]
    · by_cases hpk' : p.1 = k' <;> simp [hp, dlookup, hpk', ih, h]

theorem dlookup_dset_self (d : Dict) (k : String) (v : JVal) :
    dlookup (dset d k v) k = some v := by
  rw [dset, dlookup_append, dlookup_derase_self]
  simp [dlookup]

theorem dlookup_dset_ne (d : Dict) (k k' : String) (v : JVal) (h : k' ≠ k) :
    dlookup (dset d k v) k' = dlookup d k' := by
  rw [dset, dlookup_append, dlookup_derase_ne _ _ _ h]
  rcases hd : dlookup d k' with _ | w <;> simp [dlookup, Ne.symm h]

theorem dlookup_derase_none (d : Dict) (k k' : String) (h : dlookup d k' = none) :
    dlookup (derase d k) k' = none := by
  by_cases hk : k' = k
  · subst hk; exact dlookup_derase_self d k'
  · rw [dlookup_derase_ne d k k' hk, h]

theorem dlookup_dupdate_of_none (q d : Dict) (k : String) (h : dlookup q k = none) :
    dlookup (dupdate d q) k = dlookup d k := by
  induction q generalizing d with
  | nil => simp [dupdate]
  | cons p rest ih =>
    have hp : p.1 ≠ k := by
      intro hh
      simp [dlookup, hh] at h
    have hrest : dlookup rest k = none := by
      simpa [dlookup, hp] using h
    have : dupdate d (p :: rest) = dupdate (dset d p.1 p.2) rest := by
      simp [dupdate, List.foldl]
    rw [this, ih _ hrest, dlookup_dset_ne _ _ _ _ (fun hh => hp hh.symm)]

/-- `buildParams` keeps the starting page number when the caller's keyword
arguments do not themselves carry a `page` entry (in Python they cannot:
`page` is bound as a named parameter of `fetch`). -/
theorem buildParams_page (st : StackAPI) (page : Int) (filter : String) (kwargs2 : Dict)
    (h : dlookup kwargs2 "page" = none) :
    dlookup (buildParams st page filter kwargs2) "page" = some (.num page) := by
  unfold buildParams
  have base : dlookup [("pagesize", JVal.num st.page_size), ("page", JVal.num page),
      ("filter", JVal.str filter)] "page" = some (.num page) := by
    simp [dlookup]
  have step1 : ∀ d : Dict, dlookup d "page" = some (.num page) →
      dlookup (match st.key with
        | some v => if truthy v then dset d "key" v else d
        | none => d) "page" = some (.num page) := by
    intro d hd
    cases st.key with
    | none => exact hd
    | some v =>
      by_cases hv : truthy v <;> simp [hv, hd, dlookup_dset_ne _ _ _ _ (by decide : "page" ≠ "key")]
  have step2 : ∀ d : Dict, dlookup d "page" = some (.num page) →
      dlookup (match st.access_token with
        | some v => if truthy v then dset d "access_token" v else d
        | none => d) "page" = some (.num page) := by
    intro d hd
    cases st.access_token with
    | none => exact hd
    | some v =>
      by_cases hv : truthy v <;>
        simp [hv, hd, dlookup_dset_ne _ _ _ _ (by decide : "page" ≠ "access_token")]
  have step3 : ∀ d : Dict, dlookup d "page" = some (.num page) →
      dlookup (dupdate d kwargs2) "page" = some (.num page) := by
    intro d hd
    rw [dlookup_dupdate_of_none _ _ _ h, hd]
  have step4 : ∀ d : Dict, dlookup d "page" = some (.num page) →
      dlookup (match st.api_key with
        | some v => if truthy v then dset d "site" v else d
        | none => d) "page" = some (.num page) := by
    intro d hd
    cases st.api_key with
    | none => exact hd
    | some v =>
      by_cases hv : truthy v <;> simp [hv, hd, dlookup_dset_ne _ _ _ _ (by decide : "page" ≠ "site")]
  exact step4 _ (step3 _ (step2 _ (step1 _ base)))

/-! ### Python-semantics lemmas -/

theorem pyGetItem_ok_jLookup {v : JVal} {k : String} {w : JVal}
    (h : pyGetItem v k = .ok w) : jLookup v k = some w := by
  cases v <;> simp [pyGetItem, jLookup] at h ⊢ <;> first
    | exact h.elim
    | (rcases hd : dlookup _ k with _ | u <;> simp [hd] at h <;> simpa [hd] using h)

theorem errorCheck_none_obj {resp : JVal} {p : Option String}
    (h : errorCheck resp p = none) : ∃ fs, resp = .obj fs := by
  cases resp <;> simp [errorCheck, pyGetItem] at h ⊢

/-- The error check never fires on a dict body that lacks one of the three
error fields, and fires with the three looked-up values when all are
present. -/
theorem errorCheck_obj (fs : List (String × JVal)) (p : Option String) :
    errorCheck (.obj fs) p =
      match dlookup fs "error_id", dlookup fs "error_name", dlookup fs "error_message" with
      | some ev, some cv, some mv => some (.stackAPIError p ev cv mv)
      | _, _, _ => none := by
  rcases h1 : dlookup fs "error_id" with _ | ev <;>
    rcases h2 : dlookup fs "error_name" with _ | cv <;>
      rcases h3 : dlookup fs "error_message" with _ | mv <;>
        simp [errorCheck, pyGetItem, h1, h2, h3]

theorem backoffValT_obj (u : String) (fs : List (String × JVal)) :
    backoffValT (.ok u (.ok (.obj fs))) = bkOf fs := rfl

theorem totalT_obj (u : String) (fs : List (String × JVal)) :
    totalT (.ok u (.ok (.obj fs))) = dlookup fs "total" := rfl

theorem hasMoreT_obj (u : String) (fs : List (String × JVal)) :
    hasMoreT (.ok u (.ok (.obj fs))) = hasMoreJ fs := by
  unfold hasMoreT hasMoreJ
  rcases h : dlookup fs "has_more" with _ | v <;> simp [respOf, jLookup, h]

/-! ### Iteration inversion lemmas -/

theorem afterTotal_next_inv {fs : List (String × JVal)} {step : Step} {s : LoopSt}
    {stp : Step} {s' : LoopSt}
    (h : afterTotal (.obj fs) step s = .next stp s') :
    stp = step ∧ hasMoreJ fs = true ∧
      s' = { s with params := dset s.params "page" (pyAdd1D (dlookup s.params "page")) } := by
  unfold afterTotal at h
  simp only [pyContains] at h
  rcases hm : dlookup fs "has_more" with _ | hv
  · simp [hm] at h
  · simp only [hm, Option.isSome_some, if_true] at h
    simp only [pyGetItem, dlookup, hm] at h
    by_cases htr : truthy hv
    · simp only [htr, if_true] at h
      rcases hp : dlookup s.params "page" with _ | pv
      · simp [hp] at h
      · simp only [hp] at h
        rcases ha : pyAdd1 pv with e | pv2 <;> simp only [ha] at h
        · cases h
        · cases h
          refine ⟨rfl, by simp [hasMoreJ, hm, htr], ?_⟩
          simp [pyAdd1D, hp, ha, eToOption]
    · simp [htr] at h

theorem afterTotal_stopNone_inv {fs : List (String × JVal)} {step : Step} {s : LoopSt}
    {stp : Step} {s' : LoopSt}
    (h : afterTotal (.obj fs) step s = .stop stp s' none) :
    stp = step ∧ s' = s ∧ hasMoreJ fs = false := by
  unfold afterTotal at h
  simp only [pyContains] at h
  rcases hm : dlookup fs "has_more" with _ | hv
  · simp only [hm, Option.isSome_none, Bool.false_eq_true, if_false] at h
    cases h
    exact ⟨rfl, rfl, by simp [hasMoreJ, hm]⟩
  · simp only [hm, Option.isSome_some, if_true] at h
    simp only [pyGetItem, dlookup, hm] at h
    by_cases htr : truthy hv
    · simp only [htr, if_true] at h
      rcases hp : dlookup s.params "page" with _ | pv
      · simp [hp] at h
      · simp only [hp] at h
        rcases ha : pyAdd1 pv with e | pv2 <;> simp [ha] at h
    · simp only [htr, Bool.false_eq_true, if_false] at h
      cases h
      exact ⟨rfl, rfl, by simp [hasMoreJ, hm, htr]⟩

/-- On a dict body, the `total` handling only updates `s.total` to the
page's `total` when present. -/
theorem afterBackoff_obj (fs : List (String × JVal)) (step : Step) (s : LoopSt) :
    afterBackoff (.obj fs) step s =
      afterTotal (.obj fs) step { s with total := (dlookup fs "total").getD s.total } := by
  unfold afterBackoff
  simp only [pyContains]
  rcases ht : dlookup fs "total" with _ | tv <;> simp [ht, pyGetItem]

theorem afterAppend_next_inv {fs : List (String × JVal)} {step : Step} {s : LoopSt}
    {stp : Step} {s' : LoopSt}
    (h : afterAppend (.obj fs) step s = .next stp s') :
    stp = (bkOf fs).elim step (fun b => { step with slept := some (b + 1) }) ∧
    hasMoreJ fs = true ∧
    s' = { s with backoff := (bkOf fs).getD 0,
                  total := (dlookup fs "total").getD (.num 0),
                  params := dset s.params "page" (pyAdd1D (dlookup s.params "page")) } := by
  unfold afterAppend at h
  simp only [pyContains] at h
  rcases hb : dlookup fs "backoff" with _ | bv
  · simp only [hb, Option.isSome_none, Bool.false_eq_true, if_false] at h
    rw [afterBackoff_obj] at h
    obtain ⟨hstp, hhm, hs⟩ := afterTotal_next_inv h
    refine ⟨by simp [hstp, bkOf, hb], hhm, ?_⟩
    rw [hs]
    simp [bkOf, hb]
  · simp only [hb, Option.isSome_some, if_true] at h
    simp only [pyGetItem, dlookup, hb] at h
    rcases hpi : pyInt bv with e | b
    · simp [hpi] at h
    · simp only [hpi] at h
      by_cases hneg : b + 1 < 0
      · simp [hneg] at h
      · simp only [hneg, if_false] at h
        rw [afterBackoff_obj] at h
        obtain ⟨hstp, hhm, hs⟩ := afterTotal_next_inv h
        refine ⟨by simp [hstp, bkOf, hb, hpi, eToOption], hhm, ?_⟩
        rw [hs]
        simp [bkOf, hb, hpi, eToOption]

theorem afterAppend_stopNone_inv {fs : List (String × JVal)} {step : Step} {s : LoopSt}
    {stp : Step} {s' : LoopSt}
    (h : afterAppend (.obj fs) step s = .stop stp s' none) :
    stp = (bkOf fs).elim step (fun b => { step with slept := some (b + 1) }) ∧
    hasMoreJ fs = false ∧
    s' = { s with backoff := (bkOf fs).getD 0,
                  total := (dlookup fs "total").getD (.num 0) } := by
  unfold afterAppend at h
  simp only [pyContains] at h
  rcases hb : dlookup fs "backoff" with _ | bv
  · simp only [hb, Option.isSome_none, Bool.false_eq_true, if_false] at h
    rw [afterBackoff_obj] at h
    obtain ⟨hstp, hs, hhm⟩ := afterTotal_stopNone_inv h
    refine ⟨by simp [hstp, bkOf, hb], hhm, ?_⟩
    rw [hs]
    simp [bkOf, hb]
  · simp only [hb, Option.isSome_some, if_true] at h
    simp only [pyGetItem, dlookup, hb] at h
    rcases hpi : pyInt bv with e | b
    · simp [hpi] at h
    · simp only [hpi] at h
      by_cases hneg : b + 1 < 0
      · simp [hneg] at h
      · simp only [hneg, if_false] at h
        rw [afterBackoff_obj] at h
        obtain ⟨hstp, hs, hhm⟩ := afterTotal_stopNone_inv h
        refine ⟨by simp [hstp, bkOf, hb, hpi, eToOption], hhm, ?_⟩
        rw [hs]
        simp [bkOf, hb, hpi, eToOption]

theorem iterOnce_conn (m url : String) (key : Option String) (s : LoopSt) :
    iterOnce (.connError m) url key s =
      .stop ⟨url, s.params, none⟩ s
        (some (.stackAPIError s.previous_call (.str m) (.str m) (.str m))) := rfl

theorem iterOnce_parsefail (u m url : String) (key : Option String) (s : LoopSt) :
    iterOnce (.ok u (.fail m)) url key s =
      .stop ⟨url, s.params, none⟩ { s with previous_call := some u }
        (some (.stackAPIError (some u) (.str m) (.str m) (.str m))) := rfl

theorem iterOnce_trio {fs : List (String × JVal)} {ev cv mv : JVal}
    (u url : String) (key : Option String) (s : LoopSt)
    (h1 : dlookup fs "error_id" = some ev) (h2 : dlookup fs "error_name" = some cv)
    (h3 : dlookup fs "error_message" = some mv) :
    iterOnce (.ok u (.ok (.obj fs))) url key s =
      .stop ⟨url, s.params, none⟩ { s with previous_call := some u }
        (some (.stackAPIError (some u) ev cv mv)) := by
  simp [iterOnce, iterBody, errorCheck, pyGetItem, h1, h2, h3]

theorem iterOnce_next_inv {t : Transport} {url : String} {key : Option String}
    {s : LoopSt} {stp : Step} {s' : LoopSt}
    (h : iterOnce t url key s = .next stp s') :
    hasMoreT t = true ∧
    stp.url = url ∧ stp.params = s.params ∧
    stp.slept = (backoffValT t).map (fun b => b + 1) ∧
    s'.data = s.data ++ [appendedD key t] ∧
    s'.backoff = (backoffValT t).getD 0 ∧
    s'.total = (totalT t).getD (.num 0) ∧
    s'.params = dset s.params "page" (pyAdd1D (dlookup s.params "page")) := by
  cases t with
  | connError m => simp [iterOnce] at h
  | ok u body =>
    cases body with
    | fail m => simp [iterOnce] at h
    | ok resp =>
      simp only [iterOnce] at h
      unfold iterBody at h
      rcases hec : errorCheck resp (some u) with _ | err
      · obtain ⟨fs, rfl⟩ := errorCheck_none_obj hec
        simp only [hec] at h
        have hfin : ∀ a : JVal, appendedD key (.ok u (.ok (.obj fs))) = a →
            afterAppend (.obj fs) ⟨url, s.params, none⟩
              { s with previous_call := some u, data := s.data ++ [a] } = .next stp s' →
            hasMoreT (.ok u (.ok (.obj fs))) = true ∧
            stp.url = url ∧ stp.params = s.params ∧
            stp.slept = (backoffValT (.ok u (.ok (.obj fs)))).map (fun b => b + 1) ∧
            s'.data = s.data ++ [appendedD key (.ok u (.ok (.obj fs)))] ∧
            s'.backoff = (backoffValT (.ok u (.ok (.obj fs)))).getD 0 ∧
            s'.total = (totalT (.ok u (.ok (.obj fs)))).getD (.num 0) ∧
            s'.params = dset s.params "page" (pyAdd1D (dlookup s.params "page")) := by
          intro a ha hh
          obtain ⟨hstp, hhm, hs⟩ := afterAppend_next_inv hh
          rw [hasMoreT_obj, backoffValT_obj, totalT_obj]
          have hurl : stp.url = url := by
            rcases hbk : bkOf fs with _ | b <;> simp [hstp, hbk]
          have hparams : stp.params = s.params := by
            rcases hbk : bkOf fs with _ | b <;> simp [hstp, hbk]
          have hslept : stp.slept = (bkOf fs).map (fun b => b + 1) := by
            rcases hbk : bkOf fs with _ | b <;> simp [hstp, hbk]
          refine ⟨hhm, hurl, hparams, hslept, ?_, ?_, ?_, ?_⟩ <;> simp [hs, ha]
        cases key with
        | none =>
          exact hfin (.obj fs) rfl (by simpa using h)
        | some kk =>
          rcases hkk : pyGetItem (.obj fs) kk with e | a
          · simp [hkk] at h
          · refine hfin a ?_ (by simpa [hkk] using h)
            simp [appendedD, respOf, hkk, eToOption]
      · simp [hec] at h

theorem iterOnce_stopNone_inv {t : Transport} {url : String} {key : Option String}
    {s : LoopSt} {stp : Step} {s' : LoopSt}
    (h : iterOnce t url key s = .stop stp s' none) :
    hasMoreT t = false ∧
    stp.url = url ∧ stp.params = s.params ∧
    stp.slept = (backoffValT t).map (fun b => b + 1) ∧
    s'.data = s.data ++ [appendedD key t] ∧
    s'.backoff = (backoffValT t).getD 0 ∧
    s'.total = (totalT t).getD (.num 0) ∧
    s'.params = s.params := by
  cases t with
  | connError m => simp [iterOnce] at h
  | ok u body =>
    cases body with
    | fail m => simp [iterOnce] at h
    | ok resp =>
      simp only [iterOnce] at h
      unfold iterBody at h
      rcases hec : errorCheck resp (some u) with _ | err
      · obtain ⟨fs, rfl⟩ := errorCheck_none_obj hec
        simp only [hec] at h
        have hfin : ∀ a : JVal, appendedD key (.ok u (.ok (.obj fs))) = a →
            afterAppend (.obj fs) ⟨url, s.params, none⟩
              { s with previous_call := some u, data := s.data ++ [a] } = .stop stp s' none →
            hasMoreT (.ok u (.ok (.obj fs))) = false ∧
            stp.url = url ∧ stp.params = s.params ∧
            stp.slept = (backoffValT (.ok u (.ok (.obj fs)))).map (fun b => b + 1) ∧
            s'.data = s.data ++ [appendedD key (.ok u (.ok (.obj fs)))] ∧
            s'.backoff = (backoffValT (.ok u (.ok (.obj fs)))).getD 0 ∧
            s'.total = (totalT (.ok u (.ok (.obj fs)))).getD (.num 0) ∧
            s'.params = s.params := by
          intro a ha hh
          obtain ⟨hstp, hhm, hs⟩ := afterAppend_stopNone_inv hh
          rw [hasMoreT_obj, backoffValT_obj, totalT_obj]
          have hurl : stp.url = url := by
            rcases hbk : bkOf fs with _ | b <;> simp [hstp, hbk]
          have hparams : stp.params = s.params := by
            rcases hbk : bkOf fs with _ | b <;> simp [hstp, hbk]
          have hslept : stp.slept = (bkOf fs).map (fun b => b + 1) := by
            rcases hbk : bkOf fs with _ | b <;> simp [hstp, hbk]
          refine ⟨hhm, hurl, hparams, hslept, ?_, ?_, ?_, ?_⟩ <;> simp [hs, ha]
        cases key with
        | none =>
          exact hfin (.obj fs) rfl (by simpa using h)
        | some kk =>
          rcases hkk : pyGetItem (.obj fs) kk with e | a
          · simp [hkk] at h
          · refine hfin a ?_ (by simpa [hkk] using h)
            simp [appendedD, respOf, hkk, eToOption]
      · simp [hec] at h

/-- If the `m`-th response makes any iteration stop with an error (an error
that may depend on the loop state), then a run that reaches request `m`
issues no request after it and raises that error. -/
theorem fetchLoop_stopsAt {server : Nat → Transport} {url : String} {key : Option String}
    {m : Nat} {errF : LoopSt → PyErr}
    (hit : ∀ s0 : LoopSt, ∃ stp s1, iterOnce (server m) url key s0 = .stop stp s1 (some (errF s0))) :
    ∀ (fuel i : Nat) (s : LoopSt) (steps : List Step) (s' : LoopSt) (e : Option PyErr),
      fetchLoop server url key fuel i s = (steps, s', e) →
      ∀ j : Nat, i + j = m → j < steps.length →
        steps.length = j + 1 ∧ ∃ s0 : LoopSt, e = some (errF s0) := by
  intro fuel
  induction fuel with
  | zero =>
    intro i s steps s' e hL j hm hj
    simp only [fetchLoop] at hL
    injection hL with h1 h23
    subst h1
    simp at hj
  | succ fuel ih =>
    intro i s steps s' e hL j hm hj
    rcases hit0 : iterOnce (server i) url key s with ⟨stp, s1, e1⟩ | ⟨stp, s1⟩
    · simp only [fetchLoop, hit0] at hL
      injection hL with h1 h23
      injection h23 with h2 h3
      subst h1; subst h3
      cases j with
      | zero =>
        simp only [Nat.add_zero] at hm
        subst hm
        obtain ⟨stp', s1', heq⟩ := hit s
        rw [hit0] at heq
        injection heq with hh1 hh2 hh3
        exact ⟨rfl, s, hh3⟩
      | succ j' => simp at hj
    · simp only [fetchLoop, hit0] at hL
      rcases hrec : fetchLoop server url key fuel (i + 1) s1 with ⟨rest, s2, e2⟩
      rw [hrec] at hL
      injection hL with h1 h23
      injection h23 with h2 h3
      subst h1; subst h3
      cases j with
      | zero =>
        simp only [Nat.add_zero] at hm
        subst hm
        obtain ⟨stp', s1', heq⟩ := hit s
        rw [hit0] at heq
        cases heq
      | succ j' =>
        have hj' : j' < rest.length := by simpa using hj
        have hm' : (i + 1) + j' = m := by omega
        obtain ⟨hlen, s0, he⟩ := ih (i + 1) s1 rest s2 e2 hrec j' hm' hj'
        exact ⟨by simp [hlen], s0, he⟩

/-- Every iteration that is followed by another request slept exactly when
its response carried a convertible `backoff` value, and then by
`backoff + 1`. -/
theorem fetchLoop_slept {server : Nat → Transport} {url : String} {key : Option String} :
    ∀ (fuel i : Nat) (s : LoopSt) (steps : List Step) (s' : LoopSt) (e : Option PyErr),
      fetchLoop server url key fuel i s = (steps, s', e) →
      ∀ (j : Nat) (stp : Step), steps[j]? = some stp → j + 1 < steps.length →
        stp.slept = (backoffValT (server (i + j))).map (fun b => b + 1) := by
  intro fuel
  induction fuel with
  | zero =>
    intro i s steps s' e hL j stp hstp hj
    simp only [fetchLoop] at hL
    injection hL with h1 h23
    subst h1
    simp at hstp
  | succ fuel ih =>
    intro i s steps s' e hL j stp hstp hj
    rcases hit0 : iterOnce (server i) url key s with ⟨stp0, s1, e1⟩ | ⟨stp0, s1⟩
    · simp only [fetchLoop, hit0] at hL
      injection hL with h1 h23
      subst h1
      simp at hj
    · simp only [fetchLoop, hit0] at hL
      rcases hrec : fetchLoop server url key fuel (i + 1) s1 with ⟨rest, s2, e2⟩
      rw [hrec] at hL
      injection hL with h1 h23
      subst h1
      cases j with
      | zero =>
        simp only [List.getElem?_cons_zero, Option.some.injEq] at hstp
        subst hstp
        obtain ⟨_, _, _, hslept, _⟩ := iterOnce_next_inv hit0
        simpa using hslept
      | succ j' =>
        have hstp' : rest[j']? = some stp := by simpa using hstp
        have hj' : j' + 1 < rest.length := by simpa using hj
        have := ih (i + 1) s1 rest s2 e2 hrec j' stp hstp' hj'
        rw [show i + (j' + 1) = (i + 1) + j' from by omega]
        exact this

/-- Characterization of a loop run that ends without an exception: the
appended data are the appended values of the responses in request order, the
final `backoff`/`total` locals come from the last response, and the `page`
parameter has been incremented once per response whose `has_more` was
truthy. -/
theorem fetchLoop_success {server : Nat → Transport} {url : String} {key : Option String} :
    ∀ (fuel i : Nat) (s : LoopSt) (steps : List Step) (s' : LoopSt),
      fetchLoop server url key fuel i s = (steps, s', none) →
      s'.data = s.data ++ (List.range steps.length).map (fun j => appendedD key (server (i + j))) ∧
      (steps = [] → s' = s) ∧
      (steps ≠ [] →
        s'.backoff = (backoffValT (server (i + (steps.length - 1)))).getD 0 ∧
        s'.total = (totalT (server (i + (steps.length - 1)))).getD (.num 0)) ∧
      (∀ p : Int, dlookup s.params "page" = some (.num p) →
        dlookup s'.params "page" = some (.num (p +
          ((List.range steps.length).countP (fun j => hasMoreT (server (i + j))) : Int)))) := by
  intro fuel
  induction fuel with
  | zero =>
    intro i s steps s' hL
    simp only [fetchLoop] at hL
    injection hL with h1 h23
    injection h23 with h2 h3
    subst h1
    subst h2
    refine ⟨by simp, fun _ => rfl, fun hne => absurd rfl hne, ?_⟩
    intro p hp
    simpa using hp
  | succ fuel ih =>
    intro i s steps s' hL
    rcases hit0 : iterOnce (server i) url key s with ⟨stp0, s1, e1⟩ | ⟨stp0, s1⟩
    · simp only [fetchLoop, hit0] at hL
      injection hL with h1 h23
      injection h23 with h2 h3
      subst h1
      subst h2
      subst h3
      obtain ⟨hhm, _, _, _, hdata, hbk, htot, hparams⟩ := iterOnce_stopNone_inv hit0
      refine ⟨by simpa using hdata, by simp, fun _ => ⟨by simpa using hbk, by simpa using htot⟩, ?_⟩
      intro p hp
      rw [hparams, hp]
      simp [List.countP_cons, hhm]
    · simp only [fetchLoop, hit0] at hL
      rcases hrec : fetchLoop server url key fuel (i + 1) s1 with ⟨rest, s2, e2⟩
      rw [hrec] at hL
      dsimp only at hL
      injection hL with h1 h23
      injection h23 with h2 h3
      subst h1
      subst h2
      subst h3
      obtain ⟨hhm, _, _, _, hdata, hbk, htot, hparams⟩ := iterOnce_next_inv hit0
      obtain ⟨ihdata, ihnil, ihlast, ihpage⟩ := ih (i + 1) s1 rest s2 hrec
      have harith : ∀ j : Nat, i + 1 + j = i + (j + 1) := fun j => by omega
      constructor
      · rw [ihdata, hdata]
        simp only [List.length_cons]
        rw [List.range_succ_eq_map]
        simp only [List.map_cons, List.map_map, Nat.add_zero]
        rw [List.append_assoc, List.singleton_append]
        congr 1
        congr 1
        exact List.map_congr_left (fun j _ => by
          simp [Function.comp, Nat.succ_eq_add_one, harith j])
      constructor
      · intro hcontra
        cases hcontra
      constructor
      · intro _
        by_cases hrest : rest = []
        · have hs2 : s2 = s1 := ihnil hrest
          subst hrest
          rw [hs2]
          constructor
          · simpa using hbk
          · simpa using htot
        · obtain ⟨ihbk, ihtot⟩ := ihlast hrest
          have hlen : 1 ≤ rest.length := by
            cases hr : rest with
            | nil => exact absurd hr hrest
            | cons a l => simp [hr]
          have hidx : i + 1 + (rest.length - 1) = i + ((stp0 :: rest).length - 1) := by
            simp only [List.length_cons]
            omega
          rw [ihbk, ihtot, hidx]
          exact ⟨rfl, rfl⟩
      · intro p hp
        have hp1 : dlookup s1.params "page" = some (.num (p + 1)) := by
          rw [hparams, hp]
          simp only [pyAdd1D, pyAdd1, eToOption, Option.getD_some]
          exact dlookup_dset_self _ _ _
        have h2p := ihpage (p + 1) hp1
        rw [h2p]
        simp only [List.length_cons]
        rw [List.range_succ_eq_map]
        simp only [List.countP_cons, List.countP_map, Nat.add_zero, hhm, Function.comp_def,
          Nat.succ_eq_add_one, harith, if_true]
        simp only [Option.some.injEq, JVal.num.injEq]
        push_cast
        ring

/-- A successful `r.extend(d['items'])` loop produces exactly the
concatenation of the pages' items lists, and requires every page to have an
iterable `items` entry. -/
theorem collectItems_ok :
    ∀ (ds : List JVal) (r : List JVal), collectItems ds = .ok r →
      r = (ds.map itemsD).flatten ∧
      ∀ d ∈ ds, ∃ iv xs, pyGetItem d "items" = .ok iv ∧ pyIter iv = .ok xs := by
  intro ds
  induction ds with
  | nil =>
    intro r h
    simp only [collectItems] at h
    injection h with h1
    subst h1
    simp
  | cons d ds ih =>
    intro r h
    simp only [collectItems] at h
    rcases hiv : pyGetItem d "items" with e | iv <;> rw [hiv] at h <;> dsimp only at h
    · cases h
    · rcases hxs : pyIter iv with e | xs <;> rw [hxs] at h <;> dsimp only at h
      · cases h
      · rcases hrest : collectItems ds with e | rest <;> rw [hrest] at h <;> dsimp only at h
        · cases h
        · injection h with h1
          subst h1
          obtain ⟨ihr, ihmem⟩ := ih rest hrest
          constructor
          · rw [ihr]
            simp [itemsD, hiv, hxs, eToOption]
          · intro d' hd'
            rcases List.mem_cons.mp hd' with rfl | hd'
            · exact ⟨iv, xs, hiv, hxs⟩
            · exact ihmem d' hd'

/-- Inversion of the post-loop assembly: a successful result determines
every field from the loop state, and requires the last appended page to
carry `has_more`, `quota_max` and `quota_remaining`. -/
theorem assemble_ok {s : LoopSt} {res : FetchResult} (h : assemble s = .ok res) :
    collectItems s.data = .ok res.items ∧
    ∃ lastd, s.data.getLast? = some lastd ∧
      pyGetItem lastd "has_more" = .ok res.has_more ∧
      dictGet s.params "page" = .ok res.page ∧
      pyGetItem lastd "quota_max" = .ok res.quota_max ∧
      pyGetItem lastd "quota_remaining" = .ok res.quota_remaining ∧
      res.backoff = s.backoff ∧ res.total = s.total := by
  unfold assemble at h
  rcases hr : collectItems s.data with e | r <;> rw [hr] at h <;> dsimp only at h
  · cases h
  · rcases hlast : s.data.getLast? with _ | lastd <;> rw [hlast] at h <;> dsimp only at h
    · cases h
    · rcases hhm : pyGetItem lastd "has_more" with e | hm <;> rw [hhm] at h <;> dsimp only at h
      · cases h
      · rcases hpg : dictGet s.params "page" with e | pg <;> rw [hpg] at h <;> dsimp only at h
        · cases h
        · rcases hqm : pyGetItem lastd "quota_max" with e | qm <;> rw [hqm] at h <;> dsimp only at h
          · cases h
          · rcases hqr : pyGetItem lastd "quota_remaining" with e | qr <;> rw [hqr] at h <;> dsimp only at h
            · cases h
            · injection h with h1
              subst h1
              refine ⟨?_, lastd, ?_, ?_, ?_, ?_, ?_, ?_, ?_⟩
              · simpa using hr
              · rfl
              · simpa using hhm
              · simpa using hpg
              · simpa using hqm
              · simpa using hqr
              · rfl
              · rfl

/-- Inversion of the `send_data` assembly. -/
theorem sendAssemble_ok {resp : JVal} {params : Dict} {res : SendResult}
    (h : sendAssemble resp params = .ok res) :
    ∃ iv, pyGetItem resp "items" = .ok iv ∧ pyIter iv = .ok res.items ∧
      pyGetItem resp "has_more" = .ok res.has_more ∧
      dictGet params "page" = .ok res.page ∧
      pyGetItem resp "quota_max" = .ok res.quota_max ∧
      pyGetItem resp "quota_remaining" = .ok res.quota_remaining := by
  unfold sendAssemble at h
  rcases hiv : pyGetItem resp "items" with e | iv <;> rw [hiv] at h <;> dsimp only at h
  · cases h
  · rcases hxs : pyIter iv with e | xs <;> rw [hxs] at h <;> dsimp only at h
    · cases h
    · rcases hhm : pyGetItem resp "has_more" with e | hm <;> rw [hhm] at h <;> dsimp only at h
      · cases h
      · rcases hpg : dictGet params "page" with e | pg <;> rw [hpg] at h <;> dsimp only at h
        · cases h
        · rcases hqm : pyGetItem resp "quota_max" with e | qm <;> rw [hqm] at h <;> dsimp only at h
          · cases h
          · rcases hqr : pyGetItem resp "quota_remaining" with e | qr <;> rw [hqr] at h <;> dsimp only at h
            · cases h
            · injection h with h1
              subst h1
              refine ⟨iv, ?_, ?_, ?_, ?_, ?_, ?_⟩
              · rfl
              · simpa using hxs
              · simpa using hhm
              · simpa using hpg
              · simpa using hqm
              · simpa using hqr

/-- Inversion of a successful `fetch`: the call went through `idsJoin`, the
pagination loop ended without an exception, and the assembly succeeded. -/
theorem fetch_ok_inv {st : StackAPI} {server : Nat → Transport} {endpoint : String}
    {page : Int} {key : Option String} {filter : String} {kwargs : Dict}
    {out : FetchOut} {res : FetchResult}
    (hout : fetch st server endpoint page key filter kwargs = out)
    (hres : out.result = .ok res) :
    ∃ (idsOpt : Option String) (kwargs2 : Dict) (s1 : LoopSt),
      idsJoin kwargs = .ok (idsOpt, kwargs2) ∧
      fetchLoop server (st.base_url ++ endpoint ++ "/" ++ idsOpt.getD "") key
        (st.max_pages + 1) 0
        ⟨st.previous_call, buildParams st page filter kwargs2, [], 0, .num 0⟩
        = (out.steps, s1, none) ∧
      assemble s1 = .ok res := by
  unfold fetch at hout
  by_cases hend : endpoint = ""
  · rw [if_pos hend] at hout
    subst hout
    simp at hres
  · rw [if_neg hend] at hout
    dsimp only at hout
    rcases hids : idsJoin kwargs with e | p <;> rw [hids] at hout <;> dsimp only at hout
    · subst hout
      simp at hres
    · rcases p with ⟨idsOpt, kwargs2⟩
      dsimp only at hout
      rcases hloop : fetchLoop server (st.base_url ++ endpoint ++ "/" ++ idsOpt.getD "") key
          (st.max_pages + 1) 0
          ⟨st.previous_call, buildParams st page filter kwargs2, [], 0, .num 0⟩
        with ⟨steps, s1, e⟩
      rw [hloop] at hout
      dsimp only at hout
      cases e with
      | some err =>
        subst hout
        simp at hres
      | none =>
        rcases hasm : assemble s1 with e | r <;> rw [hasm] at hout <;> dsimp only at hout
        · subst hout
          simp at hres
        · subst hout
          simp only at hres
          injection hres with h1
          subst h1
          exact ⟨idsOpt, kwargs2, s1, rfl, hloop, hasm⟩

/-- Inversion of a successful `send_data`: the transport delivered a parsed
body, the error check passed, and the assembly succeeded. -/
theorem send_ok_inv {st : StackAPI} {t : Transport} {endpoint : String}
    {page : Int} {key : Option String} {filter : String} {kwargs : Dict}
    {out : SendOut} {res : SendResult}
    (hout : send_data st t endpoint page key filter kwargs = out)
    (hres : out.result = .ok res) :
    ∃ (kwargs2 : Dict) (u : String) (v : JVal),
      (∃ idsOpt, idsJoin kwargs = .ok (idsOpt, kwargs2)) ∧
      t = .ok u (.ok v) ∧
      errorCheck v (some u) = none ∧
      sendAssemble v (buildParams st page filter kwargs2) = .ok res := by
  unfold send_data at hout
  by_cases hend : endpoint = ""
  · rw [if_pos hend] at hout
    subst hout
    simp at hres
  · rw [if_neg hend] at hout
    dsimp only at hout
    rcases hids : idsJoin kwargs with e | p <;> rw [hids] at hout <;> dsimp only at hout
    · subst hout
      simp at hres
    · rcases p with ⟨idsOpt, kwargs2⟩
      dsimp only at hout
      cases t with
      | connError m =>
        subst hout
        simp at hres
      | ok u body =>
        cases body with
        | fail m =>
          subst hout
          simp at hres
        | ok v =>
          dsimp only at hout
          rcases hec : errorCheck v (some u) with _ | err <;> rw [hec] at hout <;> dsimp only at hout
          · rcases hasm : sendAssemble v (buildParams st page filter kwargs2) with e | r <;>
              rw [hasm] at hout <;> dsimp only at hout
            · subst hout
              simp at hres
            · subst hout
              simp only at hres
              injection hres with h1
              subst h1
              exact ⟨kwargs2, u, v, ⟨idsOpt, rfl⟩, rfl, hec, hasm⟩
          · subst hout
            simp at hres

/-! ### Claim theorems -/

/-- Claim C1 (code_bug evidence): the loop `run_cnt = 0; while run_cnt <=
self.max_pages: run_cnt += 1; ...` checks the counter before incrementing
it, so the body runs for counter values `0 .. max_pages`: with
`max_pages = 1` and a server that always reports `has_more = true`, the
call issues 2 HTTP requests, exceeding the bound of at most `max_pages`
requests stated by the claim (and by the source docstring for
`max_pages`). -/
theorem thm_C1_requests_can_exceed_max_pages :
    stMP1.max_pages = 1 ∧
    (fetch stMP1 serverMore "questions" 1 none "default" []).steps.length = 2 :=
  ⟨rfl, rfl⟩

/-- Claim C5 (code_bug evidence): `fetch` appends the semicolon-joined ids
to the URL path and removes `ids` from the query parameters, but
`send_data` computes and pops the ids and then never appends them: its
POST URL ends in `answers/`, not in `1;2;3`. -/
theorem thm_C5_send_data_drops_ids :
    (fetch stEx serverDone "answers" 1 none "default"
        [("ids", .arr [.num 1, .num 2, .num 3])]).steps.map Step.url
      = ["https://api.stackexchange.com/2.2/answers/1;2;3"] ∧
    ((fetch stEx serverDone "answers" 1 none "default"
        [("ids", .arr [.num 1, .num 2, .num 3])]).steps.map
          (fun stp => dlookup stp.params "ids")) = [none] ∧
    (send_data stEx (.ok "u" (.ok (.obj pageDone))) "answers" 1 none "default"
        [("ids", .arr [.num 1, .num 2, .num 3])]).steps.map Step.url
      = ["https://api.stackexchange.com/2.2/answers/"] ∧
    ((send_data stEx (.ok "u" (.ok (.obj pageDone))) "answers" 1 none "default"
        [("ids", .arr [.num 1, .num 2, .num 3])]).steps.map
          (fun stp => dlookup stp.params "ids")) = [none] ∧
    strEndsWith "https://api.stackexchange.com/2.2/answers/1;2;3" "1;2;3" = true ∧
    strEndsWith "https://api.stackexchange.com/2.2/answers/" "1;2;3" = false :=
  ⟨rfl, rfl, rfl, rfl, rfl, rfl⟩

/-- Claim C3 counterexample: a page body that carries `error_id` but not
`error_name`/`error_message` does NOT make the call raise `ApiError`: the
lookup of the missing field raises `KeyError`, which the
`except KeyError: pass` swallows, and the call returns successfully. -/
theorem cex_C3_error_id_alone_not_raised :
    dlookup pageErrIdOnly "error_id" = some (.num 400) ∧
    (fetch stEx serverErrIdOnly "questions" 1 none "default" []).result
      = .ok ⟨0, .bool false, .num 1, .num 10, .num 9, .num 0, []⟩ :=
  ⟨rfl, rfl⟩

/-- Claim C4 counterexample: `send_data` wraps neither a transport
failure nor a parse failure: both propagate as their raw exceptions, not
as `StackAPIError`. -/
theorem cex_C4_send_data_unwrapped_failure :
    (send_data stEx (.connError "Connection refused") "questions" 1 none "default" []).result
      = .error (.connectionError "Connection refused") ∧
    (send_data stEx (.ok "u" (.fail "Expecting value")) "questions" 1 none "default" []).result
      = .error (.valueError "Expecting value") :=
  ⟨rfl, rfl⟩

/-- Claim C9 counterexample: `fetch` also mutates the `_endpoint`
attribute (source line 156), so the last-called URL is not the only field
a call modifies. -/
theorem cex_C9_endpoint_also_mutated :
    stEx.api_endpoint = none ∧
    (fetch stEx serverDone "answers" 1 none "default" []).state.api_endpoint
      = some "answers" :=
  ⟨rfl, rfl⟩

/-- Claim C8 counterexample: a sites listing whose matching entry has an
empty (falsy) `name` makes construction fail with
`ValueError('Invalid Site Name provided')` even though the given site
identifier IS recognized (it matches the entry's `api_site_parameter`). -/
theorem cex_C8_matched_entry_with_falsy_name :
    dlookup entryFalsyName "api_site_parameter" = some (.str "meta") ∧
    pyEqStr "meta" (.str "meta") = true ∧
    initStackAPI serverSitesFalsy "meta" "2.2" none 3 100 none none
      = .error (.valueError "Invalid Site Name provided") :=
  ⟨rfl, rfl, rfl⟩

/-- `fetch` on a non-empty endpoint with a well-formed `ids` argument: the
requests issued are exactly the loop's, and a loop exception becomes the
call's raised error. -/
theorem fetch_steps_result {st : StackAPI} {server : Nat → Transport} {endpoint : String}
    {page : Int} {key : Option String} {filter : String} {kwargs : Dict}
    {idsOpt : Option String} {kwargs2 : Dict} {steps : List Step} {s1 : LoopSt}
    {e : Option PyErr}
    (hend : endpoint ≠ "") (hids : idsJoin kwargs = .ok (idsOpt, kwargs2))
    (hloop : fetchLoop server (st.base_url ++ endpoint ++ "/" ++ idsOpt.getD "") key
        (st.max_pages + 1) 0
        ⟨st.previous_call, buildParams st page filter kwargs2, [], 0, .num 0⟩
        = (steps, s1, e)) :
    (fetch st server endpoint page key filter kwargs).steps = steps ∧
    (∀ err, e = some err →
      (fetch st server endpoint page key filter kwargs).result = .error err) := by
  unfold fetch
  rw [if_neg hend]
  dsimp only
  rw [hids]
  dsimp only
  rw [hloop]
  dsimp only
  cases e with
  | some err =>
    exact ⟨rfl, fun err' h => by injection h with hh; subst hh; rfl⟩
  | none =>
    dsimp only
    rcases hasm : assemble s1 with e' | r <;> dsimp only <;>
      exact ⟨rfl, fun err' h => by cases h⟩

/-- When `fetch` returns before entering the loop (empty endpoint, or a
`TypeError` while joining `ids`), no request was issued. -/
theorem fetch_steps_empty {st : StackAPI} {server : Nat → Transport} {endpoint : String}
    {page : Int} {key : Option String} {filter : String} {kwargs : Dict}
    (h : endpoint = "" ∨ ∀ idsOpt kwargs2, idsJoin kwargs ≠ .ok (idsOpt, kwargs2)) :
    (fetch st server endpoint page key filter kwargs).steps = [] := by
  unfold fetch
  by_cases hend : endpoint = ""
  · rw [if_pos hend]
  · rw [if_neg hend]
    dsimp only
    rcases h with h | h
    · exact absurd h hend
    · rcases hids : idsJoin kwargs with e | p
      · rfl
      · rcases p with ⟨idsOpt, kwargs2⟩
        exact absurd hids (h idsOpt kwargs2)

/-- Claim C3 (amended): if a retrieved page's parsed body contains all
three of `error_id`, `error_name` and `error_message`, then the call raises
`StackAPIError` carrying exactly those three values (with the page's URL),
and issues no further request: for `fetch`, the request reaching that page
is the last one; `send_data` behaves likewise on its single request. (A
body with `error_id` but a missing `error_name` or `error_message` does not
raise: the `KeyError` of the missing field is swallowed, see the
counterexample.) -/
theorem thm_C3_error_trio_raises :
    (∀ (st : StackAPI) (server : Nat → Transport) (endpoint : String) (page : Int)
        (key : Option String) (filter : String) (kwargs : Dict)
        (j : Nat) (u : String) (fs : List (String × JVal)) (ev cv mv : JVal),
      server j = .ok u (.ok (.obj fs)) →
      dlookup fs "error_id" = some ev →
      dlookup fs "error_name" = some cv →
      dlookup fs "error_message" = some mv →
      j < (fetch st server endpoint page key filter kwargs).steps.length →
      (fetch st server endpoint page key filter kwargs).steps.length = j + 1 ∧
      (fetch st server endpoint page key filter kwargs).result
        = .error (.stackAPIError (some u) ev cv mv)) ∧
    (∀ (st : StackAPI) (t : Transport) (endpoint : String) (page : Int)
        (key : Option String) (filter : String) (kwargs : Dict)
        (u : String) (fs : List (String × JVal)) (ev cv mv : JVal)
        (idsOpt : Option String) (kwargs2 : Dict),
      endpoint ≠ "" →
      idsJoin kwargs = .ok (idsOpt, kwargs2) →
      t = .ok u (.ok (.obj fs)) →
      dlookup fs "error_id" = some ev →
      dlookup fs "error_name" = some cv →
      dlookup fs "error_message" = some mv →
      (send_data st t endpoint page key filter kwargs).steps.length = 1 ∧
      (send_data st t endpoint page key filter kwargs).result
        = .error (.stackAPIError (some u) ev cv mv)) := by
  constructor
  · intro st server endpoint page key filter kwargs j u fs ev cv mv hserver h1 h2 h3 hj
    by_cases hend : endpoint = ""
    · rw [fetch_steps_empty (Or.inl hend)] at hj
      simp at hj
    · rcases hids : idsJoin kwargs with e | p
      · rw [fetch_steps_empty (Or.inr (fun a b hh => by rw [hids] at hh; cases hh))] at hj
        simp at hj
      · rcases p with ⟨idsOpt, kwargs2⟩
        rcases hloop : fetchLoop server (st.base_url ++ endpoint ++ "/" ++ idsOpt.getD "") key
            (st.max_pages + 1) 0
            ⟨st.previous_call, buildParams st page filter kwargs2, [], 0, .num 0⟩
          with ⟨steps, s1, e⟩
        obtain ⟨hsteps, hres⟩ := fetch_steps_result hend hids hloop
        rw [hsteps] at hj
        have hit : ∀ s0 : LoopSt, ∃ stp srest,
            iterOnce (server j) (st.base_url ++ endpoint ++ "/" ++ idsOpt.getD "") key s0
              = .stop stp srest
                (some ((fun _ : LoopSt => PyErr.stackAPIError (some u) ev cv mv) s0)) := by
          intro s0
          rw [hserver]
          exact ⟨_, _, iterOnce_trio u _ key s0 h1 h2 h3⟩
        obtain ⟨hlen, s0, he⟩ :=
          fetchLoop_stopsAt hit (st.max_pages + 1) 0 _ steps s1 e hloop j (by omega) hj
        refine ⟨by rw [hsteps]; exact hlen, hres _ he⟩
  · intro st t endpoint page key filter kwargs u fs ev cv mv idsOpt kwargs2 hend hids ht h1 h2 h3
    subst ht
    unfold send_data
    rw [if_neg hend]
    dsimp only
    rw [hids]
    dsimp only
    rw [errorCheck_obj, h1, h2, h3]
    dsimp only
    exact ⟨rfl, rfl⟩

/-- Claim C4 (amended): in `fetch`, a transport-level connection failure
and a response-body parse failure are each wrapped as `StackAPIError` with
the error text in all three error fields, and abort the call with no
further request (no retry). In `send_data`, the same failures are NOT
wrapped: the raw `ConnectionError` / JSON decode `ValueError` propagates
(also without retry: exactly one request is attempted). -/
theorem thm_C4_failure_wrapping :
    (∀ (st : StackAPI) (server : Nat → Transport) (endpoint : String) (page : Int)
        (key : Option String) (filter : String) (kwargs : Dict) (j : Nat) (m : String),
      server j = .connError m →
      j < (fetch st server endpoint page key filter kwargs).steps.length →
      (fetch st server endpoint page key filter kwargs).steps.length = j + 1 ∧
      ∃ p, (fetch st server endpoint page key filter kwargs).result
        = .error (.stackAPIError p (.str m) (.str m) (.str m))) ∧
    (∀ (st : StackAPI) (server : Nat → Transport) (endpoint : String) (page : Int)
        (key : Option String) (filter : String) (kwargs : Dict) (j : Nat) (u m : String),
      server j = .ok u (.fail m) →
      j < (fetch st server endpoint page key filter kwargs).steps.length →
      (fetch st server endpoint page key filter kwargs).steps.length = j + 1 ∧
      (fetch st server endpoint page key filter kwargs).result
        = .error (.stackAPIError (some u) (.str m) (.str m) (.str m))) ∧
    (∀ (st : StackAPI) (endpoint : String) (page : Int)
        (key : Option String) (filter : String) (kwargs : Dict) (m : String)
        (idsOpt : Option String) (kwargs2 : Dict),
      endpoint ≠ "" →
      idsJoin kwargs = .ok (idsOpt, kwargs2) →
      (send_data st (.connError m) endpoint page key filter kwargs).steps.length = 1 ∧
      (send_data st (.connError m) endpoint page key filter kwargs).result
        = .error (.connectionError m)) ∧
    (∀ (st : StackAPI) (endpoint : String) (page : Int)
        (key : Option String) (filter : String) (kwargs : Dict) (u m : String)
        (idsOpt : Option String) (kwargs2 : Dict),
      endpoint ≠ "" →
      idsJoin kwargs = .ok (idsOpt, kwargs2) →
      (send_data st (.ok u (.fail m)) endpoint page key filter kwargs).steps.length = 1 ∧
      (send_data st (.ok u (.fail m)) endpoint page key filter kwargs).result
        = .error (.valueError m)) := by
  refine ⟨?_, ?_, ?_, ?_⟩
  · intro st server endpoint page key filter kwargs j m hserver hj
    by_cases hend : endpoint = ""
    · rw [fetch_steps_empty (Or.inl hend)] at hj
      simp at hj
    · rcases hids : idsJoin kwargs with e | p
      · rw [fetch_steps_empty (Or.inr (fun a b hh => by rw [hids] at hh; cases hh))] at hj
        simp at hj
      · rcases p with ⟨idsOpt, kwargs2⟩
        rcases hloop : fetchLoop server (st.base_url ++ endpoint ++ "/" ++ idsOpt.getD "") key
            (st.max_pages + 1) 0
            ⟨st.previous_call, buildParams st page filter kwargs2, [], 0, .num 0⟩
          with ⟨steps, s1, e⟩
        obtain ⟨hsteps, hres⟩ := fetch_steps_result hend hids hloop
        rw [hsteps] at hj
        have hit : ∀ s0 : LoopSt, ∃ stp srest,
            iterOnce (server j) (st.base_url ++ endpoint ++ "/" ++ idsOpt.getD "") key s0
              = .stop stp srest
                (some ((fun s0 : LoopSt =>
                  PyErr.stackAPIError s0.previous_call (.str m) (.str m) (.str m)) s0)) := by
          intro s0
          rw [hserver]
          exact ⟨_, _, iterOnce_conn m _ key s0⟩
        obtain ⟨hlen, s0, he⟩ :=
          fetchLoop_stopsAt hit (st.max_pages + 1) 0 _ steps s1 e hloop j (by omega) hj
        exact ⟨by rw [hsteps]; exact hlen, s0.previous_call, hres _ he⟩
  · intro st server endpoint page key filter kwargs j u m hserver hj
    by_cases hend : endpoint = ""
    · rw [fetch_steps_empty (Or.inl hend)] at hj
      simp at hj
    · rcases hids : idsJoin kwargs with e | p
      · rw [fetch_steps_empty (Or.inr (fun a b hh => by rw [hids] at hh; cases hh))] at hj
        simp at hj
      · rcases p with ⟨idsOpt, kwargs2⟩
        rcases hloop : fetchLoop server (st.base_url ++ endpoint ++ "/" ++ idsOpt.getD "") key
            (st.max_pages + 1) 0
            ⟨st.previous_call, buildParams st page filter kwargs2, [], 0, .num 0⟩
          with ⟨steps, s1, e⟩
        obtain ⟨hsteps, hres⟩ := fetch_steps_result hend hids hloop
        rw [hsteps] at hj
        have hit : ∀ s0 : LoopSt, ∃ stp srest,
            iterOnce (server j) (st.base_url ++ endpoint ++ "/" ++ idsOpt.getD "") key s0
              = .stop stp srest
                (some ((fun _ : LoopSt =>
                  PyErr.stackAPIError (some u) (.str m) (.str m) (.str m)) s0)) := by
          intro s0
          rw [hserver]
          exact ⟨_, _, iterOnce_parsefail u m _ key s0⟩
        obtain ⟨hlen, s0, he⟩ :=
          fetchLoop_stopsAt hit (st.max_pages + 1) 0 _ steps s1 e hloop j (by omega) hj
        exact ⟨by rw [hsteps]; exact hlen, hres _ he⟩
  · intro st endpoint page key filter kwargs m idsOpt kwargs2 hend hids
    unfold send_data
    rw [if_neg hend]
    dsimp only
    rw [hids]
    dsimp only
    exact ⟨rfl, rfl⟩
  · intro st endpoint page key filter kwargs u m idsOpt kwargs2 hend hids
    unfold send_data
    rw [if_neg hend]
    dsimp only
    rw [hids]
    dsimp only
    exact ⟨rfl, rfl⟩

/-- Claim C6: whenever the `j`-th retrieved page carries a `backoff` value
`N` and the call issues a next request (request `j+1` exists), the `j`-th
iteration invoked `time.sleep` with `N + 1` before that next request was
issued (the sleep is recorded on step `j`, which precedes step `j+1`). -/
theorem thm_C6_backoff_sleep
    (st : StackAPI) (server : Nat → Transport) (endpoint : String) (page : Int)
    (key : Option String) (filter : String) (kwargs : Dict)
    (j : Nat) (N : Int) (stp : Step)
    (hbk : backoffValT (server j) = some N)
    (hj : j + 1 < (fetch st server endpoint page key filter kwargs).steps.length)
    (hstp : (fetch st server endpoint page key filter kwargs).steps[j]? = some stp) :
    stp.slept = some (N + 1) := by
  by_cases hend : endpoint = ""
  · rw [fetch_steps_empty (Or.inl hend)] at hj
    simp at hj
  · rcases hids : idsJoin kwargs with e | p
    · rw [fetch_steps_empty (Or.inr (fun a b hh => by rw [hids] at hh; cases hh))] at hj
      simp at hj
    · rcases p with ⟨idsOpt, kwargs2⟩
      rcases hloop : fetchLoop server (st.base_url ++ endpoint ++ "/" ++ idsOpt.getD "") key
          (st.max_pages + 1) 0
          ⟨st.previous_call, buildParams st page filter kwargs2, [], 0, .num 0⟩
        with ⟨steps, s1, e⟩
      obtain ⟨hsteps, _⟩ := fetch_steps_result hend hids hloop
      rw [hsteps] at hj hstp
      have := fetchLoop_slept (st.max_pages + 1) 0 _ steps s1 e hloop j stp hstp hj
      rw [Nat.zero_add, hbk] at this
      simpa using this

theorem getLast?_map_range {α : Type} (f : Nat → α) (n : Nat) (hn : n ≠ 0) :
    ((List.range n).map f).getLast? = some (f (n - 1)) := by
  rw [List.getLast?_eq_getElem?]
  simp only [List.length_map, List.length_range, List.getElem?_map, List.getElem?_range]
  have hlt : n - 1 < n := by omega
  simp [hlt]

/-- Popping `ids` from the keyword arguments cannot introduce a `page`
entry. -/
theorem idsJoin_page_none {kwargs : Dict} {idsOpt : Option String} {kwargs2 : Dict}
    (hids : idsJoin kwargs = .ok (idsOpt, kwargs2))
    (h : dlookup kwargs "page" = none) : dlookup kwargs2 "page" = none := by
  unfold idsJoin at hids
  rcases hk : dlookup kwargs "ids" with _ | v <;> rw [hk] at hids <;> dsimp only at hids
  · injection hids with h1
    injection h1 with h2 h3
    rw [← h3]
    exact h
  · rcases hx : pyIter v with e | xs <;> rw [hx] at hids <;> dsimp only at hids
    · cases hids
    · injection hids with h1
      injection h1 with h2 h3
      rw [← h3]
      exact dlookup_derase_none _ _ _ h

/-- Claim C2: on a successful `fetch`, the result's `items` is the
concatenation, in request order, of the items lists of the appended pages,
and hence its length is the sum of the per-page items lengths. -/
theorem thm_C2_items_concatenation
    (st : StackAPI) (server : Nat → Transport) (endpoint : String) (page : Int)
    (key : Option String) (filter : String) (kwargs : Dict)
    (out : FetchOut) (res : FetchResult)
    (hout : fetch st server endpoint page key filter kwargs = out)
    (hres : out.result = .ok res) :
    res.items = ((List.range out.steps.length).map
        (fun j => itemsD (appendedD key (server j)))).flatten ∧
    res.items.length = ((List.range out.steps.length).map
        (fun j => (itemsD (appendedD key (server j))).length)).sum := by
  obtain ⟨idsOpt, kwargs2, s1, hids, hloop, hasm⟩ := fetch_ok_inv hout hres
  obtain ⟨hdata, _, _, _⟩ := fetchLoop_success (st.max_pages + 1) 0 _ out.steps s1 hloop
  obtain ⟨hci, _⟩ := assemble_ok hasm
  obtain ⟨hr, _⟩ := collectItems_ok _ _ hci
  have hitems : res.items = ((List.range out.steps.length).map
      (fun j => itemsD (appendedD key (server j)))).flatten := by
    rw [hr, hdata]
    simp [List.map_map, Function.comp_def, Nat.zero_add]
  refine ⟨hitems, ?_⟩
  rw [hitems, List.length_flatten]
  simp [List.map_map, Function.comp_def]

/-- Claim C7: on a successful `fetch`, the result's `has_more`,
`quota_max` and `quota_remaining` come from the last appended page;
`backoff` is the last page's backoff (0 when it carries none); `total` is
the last page's `total`, reset to 0 when the last page omits it; and
`page` is the final page-parameter value: the starting page plus one
increment per response whose `has_more` was truthy. -/
theorem thm_C7_envelope_from_last_page
    (st : StackAPI) (server : Nat → Transport) (endpoint : String) (page : Int)
    (key : Option String) (filter : String) (kwargs : Dict)
    (out : FetchOut) (res : FetchResult)
    (hout : fetch st server endpoint page key filter kwargs = out)
    (hres : out.result = .ok res)
    (hkw : dlookup kwargs "page" = none) :
    res.has_more = (jLookup (appendedD key (server (out.steps.length - 1))) "has_more").getD .null ∧
    res.quota_max = (jLookup (appendedD key (server (out.steps.length - 1))) "quota_max").getD .null ∧
    res.quota_remaining
      = (jLookup (appendedD key (server (out.steps.length - 1))) "quota_remaining").getD .null ∧
    res.backoff = (backoffValT (server (out.steps.length - 1))).getD 0 ∧
    res.total = (totalT (server (out.steps.length - 1))).getD (.num 0) ∧
    res.page = .num (page +
      ((List.range out.steps.length).countP (fun j => hasMoreT (server j)) : Int)) := by
  obtain ⟨idsOpt, kwargs2, s1, hids, hloop, hasm⟩ := fetch_ok_inv hout hres
  obtain ⟨hdata, hnil, hlast, hpage⟩ := fetchLoop_success (st.max_pages + 1) 0 _ out.steps s1 hloop
  obtain ⟨hci, lastd, hlastd, hhm, hpg, hqm, hqr, hbk0, htot0⟩ := assemble_ok hasm
  have hne : out.steps ≠ [] := by
    intro hempty
    rw [hnil hempty] at hlastd
    simp at hlastd
  have hn0 : out.steps.length ≠ 0 := fun hh => hne (List.length_eq_zero.mp hh)
  obtain ⟨hbkL, htotL⟩ := hlast hne
  have hlast_eq : lastd = appendedD key (server (out.steps.length - 1)) := by
    rw [hdata, List.nil_append,
      getLast?_map_range (fun j => appendedD key (server (0 + j))) _ hn0] at hlastd
    injection hlastd with hh
    rw [← hh, Nat.zero_add]
  refine ⟨?_, ?_, ?_, ?_, ?_, ?_⟩
  · rw [← hlast_eq, pyGetItem_ok_jLookup hhm]
    rfl
  · rw [← hlast_eq, pyGetItem_ok_jLookup hqm]
    rfl
  · rw [← hlast_eq, pyGetItem_ok_jLookup hqr]
    rfl
  · rw [hbk0, hbkL, Nat.zero_add]
  · rw [htot0, htotL, Nat.zero_add]
  · have hkw2 : dlookup kwargs2 "page" = none := idsJoin_page_none hids hkw
    have hp0 : dlookup (buildParams st page filter kwargs2) "page" = some (.num page) :=
      buildParams_page st page filter kwargs2 hkw2
    have hp1 := hpage page hp0
    simp only [Nat.zero_add] at hp1
    unfold dictGet at hpg
    rw [hp1] at hpg
    injection hpg with hh
    exact hh.symm

/-- Claim C10: the post-loop assembly performs unchecked lookups. First
conjunct: concretely, an error-free page (no `error_id`) that lacks
`has_more` makes `fetch` fail with an uncaught `KeyError` — not a
`StackAPIError` — after its page was already fetched (one request was
issued). Second and third conjuncts: any successful `fetch` (resp.
`send_data`) requires every appended page to carry `items` and the final
page to carry `has_more`, `quota_max` and `quota_remaining`. -/
theorem thm_C10_success_requires_fields :
    (dlookup pageNoHasMore "error_id" = none ∧
     (fetch stEx serverNoHasMore "questions" 1 none "default" []).steps.length = 1 ∧
     (fetch stEx serverNoHasMore "questions" 1 none "default" []).result
       = .error (.keyError "has_more")) ∧
    (∀ (st : StackAPI) (server : Nat → Transport) (endpoint : String) (page : Int)
        (key : Option String) (filter : String) (kwargs : Dict)
        (out : FetchOut) (res : FetchResult),
      fetch st server endpoint page key filter kwargs = out →
      out.result = .ok res →
      (∀ j, j < out.steps.length →
        (jLookup (appendedD key (server j)) "items").isSome = true) ∧
      (jLookup (appendedD key (server (out.steps.length - 1))) "has_more").isSome = true ∧
      (jLookup (appendedD key (server (out.steps.length - 1))) "quota_max").isSome = true ∧
      (jLookup (appendedD key (server (out.steps.length - 1))) "quota_remaining").isSome = true) ∧
    (∀ (st : StackAPI) (t : Transport) (endpoint : String) (page : Int)
        (key : Option String) (filter : String) (kwargs : Dict)
        (out : SendOut) (res : SendResult),
      send_data st t endpoint page key filter kwargs = out →
      out.result = .ok res →
      ∃ u v, t = .ok u (.ok v) ∧
        (jLookup v "items").isSome = true ∧
        (jLookup v "has_more").isSome = true ∧
        (jLookup v "quota_max").isSome = true ∧
        (jLookup v "quota_remaining").isSome = true) := by
  refine ⟨⟨rfl, rfl, rfl⟩, ?_, ?_⟩
  · intro st server endpoint page key filter kwargs out res hout hres
    obtain ⟨idsOpt, kwargs2, s1, hids, hloop, hasm⟩ := fetch_ok_inv hout hres
    obtain ⟨hdata, hnil, _, _⟩ := fetchLoop_success (st.max_pages + 1) 0 _ out.steps s1 hloop
    obtain ⟨hci, lastd, hlastd, hhm, _, hqm, hqr, _, _⟩ := assemble_ok hasm
    obtain ⟨_, hmem⟩ := collectItems_ok _ _ hci
    have hne : out.steps ≠ [] := by
      intro hempty
      rw [hnil hempty] at hlastd
      simp at hlastd
    have hn0 : out.steps.length ≠ 0 := fun hh => hne (List.length_eq_zero.mp hh)
    have hlast_eq : lastd = appendedD key (server (out.steps.length - 1)) := by
      rw [hdata, List.nil_append,
        getLast?_map_range (fun j => appendedD key (server (0 + j))) _ hn0] at hlastd
      injection hlastd with hh
      rw [← hh, Nat.zero_add]
    refine ⟨?_, ?_, ?_, ?_⟩
    · intro j hj
      have hmemb : appendedD key (server j) ∈ s1.data := by
        rw [hdata, List.nil_append]
        refine List.mem_map.mpr ⟨j, List.mem_range.mpr hj, ?_⟩
        rw [Nat.zero_add]
      obtain ⟨iv, xs, hiv, _⟩ := hmem _ hmemb
      rw [pyGetItem_ok_jLookup hiv]
      rfl
    · rw [← hlast_eq, pyGetItem_ok_jLookup hhm]
      rfl
    · rw [← hlast_eq, pyGetItem_ok_jLookup hqm]
      rfl
    · rw [← hlast_eq, pyGetItem_ok_jLookup hqr]
      rfl
  · intro st t endpoint page key filter kwargs out res hout hres
    obtain ⟨kwargs2, u, v, _, ht, _, hasm⟩ := send_ok_inv hout hres
    obtain ⟨iv, hiv, _, hhm, _, hqm, hqr⟩ := sendAssemble_ok hasm
    refine ⟨u, v, ht, ?_, ?_, ?_, ?_⟩
    · rw [pyGetItem_ok_jLookup hiv]
      rfl
    · rw [pyGetItem_ok_jLookup hhm]
      rfl
    · rw [pyGetItem_ok_jLookup hqm]
      rfl
    · rw [pyGetItem_ok_jLookup hqr]
      rfl

/-- Claim C9 (amended): every `fetch` and every `send_data` call leaves the
configuration attributes (proxy, max_pages, page_size, key, access_token,
site key fragment `_api_key`, canonical name `_name`, version, base URL)
unchanged; the only mutated attributes are the diagnostics `_previous_call`
(last-called URL) and `_endpoint` (see the counterexample for the
latter). -/
theorem thm_C9_config_immutable :
    (∀ (st : StackAPI) (server : Nat → Transport) (endpoint : String) (page : Int)
        (key : Option String) (filter : String) (kwargs : Dict),
      (fetch st server endpoint page key filter kwargs).state.proxy = st.proxy ∧
      (fetch st server endpoint page key filter kwargs).state.max_pages = st.max_pages ∧
      (fetch st server endpoint page key filter kwargs).state.page_size = st.page_size ∧
      (fetch st server endpoint page key filter kwargs).state.key = st.key ∧
      (fetch st server endpoint page key filter kwargs).state.access_token = st.access_token ∧
      (fetch st server endpoint page key filter kwargs).state.api_key = st.api_key ∧
      (fetch st server endpoint page key filter kwargs).state.name = st.name ∧
      (fetch st server endpoint page key filter kwargs).state.version = st.version ∧
      (fetch st server endpoint page key filter kwargs).state.base_url = st.base_url) ∧
    (∀ (st : StackAPI) (t : Transport) (endpoint : String) (page : Int)
        (key : Option String) (filter : String) (kwargs : Dict),
      (send_data st t endpoint page key filter kwargs).state.proxy = st.proxy ∧
      (send_data st t endpoint page key filter kwargs).state.max_pages = st.max_pages ∧
      (send_data st t endpoint page key filter kwargs).state.page_size = st.page_size ∧
      (send_data st t endpoint page key filter kwargs).state.key = st.key ∧
      (send_data st t endpoint page key filter kwargs).state.access_token = st.access_token ∧
      (send_data st t endpoint page key filter kwargs).state.api_key = st.api_key ∧
      (send_data st t endpoint page key filter kwargs).state.name = st.name ∧
      (send_data st t endpoint page key filter kwargs).state.version = st.version ∧
      (send_data st t endpoint page key filter kwargs).state.base_url = st.base_url) := by
  constructor
  · intro st server endpoint page key filter kwargs
    unfold fetch
    by_cases hend : endpoint = ""
    · rw [if_pos hend]
      exact ⟨rfl, rfl, rfl, rfl, rfl, rfl, rfl, rfl, rfl⟩
    · rw [if_neg hend]
      dsimp only
      rcases hids : idsJoin kwargs with e | p
      · exact ⟨rfl, rfl, rfl, rfl, rfl, rfl, rfl, rfl, rfl⟩
      · rcases p with ⟨idsOpt, kwargs2⟩
        dsimp only
        rcases hloop : fetchLoop server (st.base_url ++ endpoint ++ "/" ++ idsOpt.getD "") key
            (st.max_pages + 1) 0
            ⟨st.previous_call, buildParams st page filter kwargs2, [], 0, .num 0⟩
          with ⟨steps, s1, e⟩
        dsimp only
        cases e with
        | some err => exact ⟨rfl, rfl, rfl, rfl, rfl, rfl, rfl, rfl, rfl⟩
        | none =>
          dsimp only
          rcases hasm : assemble s1 with e' | r <;>
            exact ⟨rfl, rfl, rfl, rfl, rfl, rfl, rfl, rfl, rfl⟩
  · intro st t endpoint page key filter kwargs
    unfold send_data
    by_cases hend : endpoint = ""
    · rw [if_pos hend]
      exact ⟨rfl, rfl, rfl, rfl, rfl, rfl, rfl, rfl, rfl⟩
    · rw [if_neg hend]
      dsimp only
      rcases hids : idsJoin kwargs with e | p
      · exact ⟨rfl, rfl, rfl, rfl, rfl, rfl, rfl, rfl, rfl⟩
      · rcases p with ⟨idsOpt, kwargs2⟩
        dsimp only
        cases t with
        | connError m => exact ⟨rfl, rfl, rfl, rfl, rfl, rfl, rfl, rfl, rfl⟩
        | ok u body =>
          cases body with
          | fail m => exact ⟨rfl, rfl, rfl, rfl, rfl, rfl, rfl, rfl, rfl⟩
          | ok v =>
            dsimp only
            rcases hec : errorCheck v (some u) with _ | err
            · rcases hasm : sendAssemble v (buildParams st page filter kwargs2) with e' | r <;>
                exact ⟨rfl, rfl, rfl, rfl, rfl, rfl, rfl, rfl, rfl⟩
            · exact ⟨rfl, rfl, rfl, rfl, rfl, rfl, rfl, rfl, rfl⟩

/-- The site scan returns no match when every entry's site parameter fails
to equal the requested name. -/
theorem scanSites_none {name : String} :
    ∀ L : List JVal,
      (∀ s ∈ L, ∃ pv, pyGetItem s "api_site_parameter" = .ok pv ∧ pyEqStr name pv = false) →
      scanSites name L = .ok none := by
  intro L
  induction L with
  | nil => intro _; rfl
  | cons s rest ih =>
    intro h
    obtain ⟨pv, hpv, hne⟩ := h s (List.mem_cons_self s rest)
    unfold scanSites
    rw [hpv]
    dsimp only
    rw [if_neg (by simp [hne])]
    exact ih (fun s' hs' => h s' (List.mem_cons_of_mem s hs'))

/-- The site scan returns the first matching entry's `name` and
`api_site_parameter`. -/
theorem scanSites_found {name : String} {s nm pv : JVal} {post : List JVal} :
    ∀ pre : List JVal,
      (∀ s' ∈ pre, ∃ pv', pyGetItem s' "api_site_parameter" = .ok pv' ∧ pyEqStr name pv' = false) →
      pyGetItem s "api_site_parameter" = .ok pv →
      pyEqStr name pv = true →
      pyGetItem s "name" = .ok nm →
      scanSites name (pre ++ s :: post) = .ok (some (nm, pv)) := by
  intro pre
  induction pre with
  | nil =>
    intro _ hpv heq hnm
    rw [List.nil_append]
    unfold scanSites
    rw [hpv]
    dsimp only
    rw [if_pos heq]
    rw [hnm]
  | cons s0 rest ih =>
    intro h hpv heq hnm
    obtain ⟨pv', hpv', hne'⟩ := h s0 (List.mem_cons_self s0 rest)
    rw [List.cons_append]
    unfold scanSites
    rw [hpv']
    dsimp only
    rw [if_neg (by simp [hne'])]
    exact ih (fun s' hs' => h s' (List.mem_cons_of_mem s0 hs')) hpv heq hnm

/-- Claim C8 (amended): construction scans the sites listing for an entry
whose `api_site_parameter` equals the given identifier. If no entry
matches, construction fails with `ValueError('Invalid Site Name
provided')`. If the first matching entry carries a truthy `name`,
construction succeeds and sets the canonical name (`_name`) and the site
key fragment (`_api_key`) from that entry. (A matching entry with a falsy
`name` makes construction fail despite the match — see the
counterexample.) -/
theorem thm_C8_site_resolution
    (server : Nat → Transport) (name version : String)
    (proxy : Option JVal) (max_pages : Nat) (page_size : Int)
    (key access_token : Option JVal) (sites : FetchResult)
    (hname : name ≠ "")
    (hfetch : (fetch ⟨proxy, max_pages, page_size, key, access_token, none, none, none,
        version, none, "https://api.stackexchange.com/" ++ version ++ "/"⟩
        server "sites" 1 none "!*L1*AY-85YllAr2)" []).result = .ok sites) :
    ((∀ s ∈ sites.items,
        ∃ pv, pyGetItem s "api_site_parameter" = .ok pv ∧ pyEqStr name pv = false) →
      initStackAPI server name version proxy max_pages page_size key access_token
        = .error (.valueError "Invalid Site Name provided")) ∧
    (∀ (pre : List JVal) (s : JVal) (post : List JVal) (nm pv : JVal),
      sites.items = pre ++ s :: post →
      (∀ s' ∈ pre,
        ∃ pv', pyGetItem s' "api_site_parameter" = .ok pv' ∧ pyEqStr name pv' = false) →
      pyGetItem s "api_site_parameter" = .ok pv →
      pyEqStr name pv = true →
      pyGetItem s "name" = .ok nm →
      truthy nm = true →
      ∃ st', initStackAPI server name version proxy max_pages page_size key access_token
          = .ok st' ∧
        st'.name = some nm ∧ st'.api_key = some pv) := by
  constructor
  · intro hnomatch
    unfold initStackAPI
    rw [if_neg hname]
    dsimp only
    rw [hfetch]
    dsimp only
    rw [scanSites_none sites.items hnomatch]
  · intro pre s post nm pv hsplit hpre hpv heq hnm htr
    unfold initStackAPI
    rw [if_neg hname]
    dsimp only
    rw [hfetch]
    dsimp only
    rw [hsplit, scanSites_found pre hpre hpv heq hnm]
    dsimp only
    rw [if_pos htr]
    exact ⟨_, rfl, rfl, rfl⟩

/-- Witness for C2 at the two-page fixture: the call succeeds with four
items, whose count equals the sum of the per-page items lengths. -/
theorem thm_C2_items_concatenation_witness :
    (fetch stEx serverTwo "questions" 1 none "default" []).result
      = .ok ⟨0, .bool false, .num 2, .num 10, .num 9, .num 0,
          [.num 1, .num 2, .num 5, .num 6]⟩ ∧
    ([.num 1, .num 2, .num 5, .num 6] : List JVal).length
      = ((List.range (fetch stEx serverTwo "questions" 1 none "default" []).steps.length).map
          (fun j => (itemsD (appendedD none (serverTwo j))).length)).sum :=
  ⟨rfl,
    (thm_C2_items_concatenation stEx serverTwo "questions" 1 none "default" []
      (fetch stEx serverTwo "questions" 1 none "default" [])
      ⟨0, .bool false, .num 2, .num 10, .num 9, .num 0, [.num 1, .num 2, .num 5, .num 6]⟩
      rfl rfl).2⟩

/-- Witness for C3 at a page carrying the full error triple: the call
issues exactly one request and raises with the page's three values. -/
theorem thm_C3_error_trio_raises_witness :
    (fetch stEx serverErrTrio "questions" 1 none "default" []).steps.length = 0 + 1 ∧
    (fetch stEx serverErrTrio "questions" 1 none "default" []).result
      = .error (.stackAPIError (some "https://err/") (.num 404) (.str "not_found")
          (.str "bad method")) :=
  thm_C3_error_trio_raises.1 stEx serverErrTrio "questions" 1 none "default" [] 0
    "https://err/" pageErrTrio (.num 404) (.str "not_found") (.str "bad method")
    rfl rfl rfl rfl (by decide)

/-- Witness for C4 at an always-failing transport: `fetch` issues exactly
one request. -/
theorem thm_C4_failure_wrapping_witness :
    (fetch stEx (fun _ => Transport.connError "boom") "questions" 1 none "default"
        []).steps.length = 0 + 1 :=
  (thm_C4_failure_wrapping.1 stEx (fun _ => Transport.connError "boom") "questions" 1 none
    "default" [] 0 "boom" rfl (by decide)).1

/-- Witness for C6 at the two-page fixture: page 0 carries `backoff = 2`
and the recorded step slept `2 + 1`. -/
theorem thm_C6_backoff_sleep_witness :
    (⟨"https://api.stackexchange.com/2.2/questions/",
      [("pagesize", .num 100), ("page", .num 1), ("filter", .str "default"),
       ("site", .str "stackoverflow")], some 3⟩ : Step).slept = some (2 + 1) :=
  thm_C6_backoff_sleep stEx serverTwo "questions" 1 none "default" [] 0 2
    ⟨"https://api.stackexchange.com/2.2/questions/",
      [("pagesize", .num 100), ("page", .num 1), ("filter", .str "default"),
       ("site", .str "stackoverflow")], some 3⟩
    rfl (by decide) rfl

/-- Witness for C7 at the two-page fixture: the result's page field equals
the starting page plus one increment for the single `has_more` page. -/
theorem thm_C7_envelope_from_last_page_witness :
    (⟨0, .bool false, .num 2, .num 10, .num 9, .num 0,
        [.num 1, .num 2, .num 5, .num 6]⟩ : FetchResult).page
      = .num (1 + ((List.range
          (fetch stEx serverTwo "questions" 1 none "default" []).steps.length).countP
            (fun j => hasMoreT (serverTwo j)) : Int)) :=
  (thm_C7_envelope_from_last_page stEx serverTwo "questions" 1 none "default" []
    (fetch stEx serverTwo "questions" 1 none "default" [])
    ⟨0, .bool false, .num 2, .num 10, .num 9, .num 0, [.num 1, .num 2, .num 5, .num 6]⟩
    rfl rfl rfl).2.2.2.2.2

/-- Witness for C8 at a one-entry sites listing for Stack Overflow:
construction succeeds. -/
theorem thm_C8_site_resolution_witness :
    (initStackAPI serverSitesSO "stackoverflow" "2.2" none 3 100 none none).isOk = true := by
  obtain ⟨st', hst, _, _⟩ :=
    (thm_C8_site_resolution serverSitesSO "stackoverflow" "2.2" none 3 100 none none
      ⟨0, .bool false, .num 1, .num 10, .num 9, .num 0, [.obj entrySO]⟩
      (by decide) rfl).2
      [] (.obj entrySO) [] (.str "Stack Overflow") (.str "stackoverflow")
      rfl (by simp) rfl rfl rfl rfl
  rw [hst]
  rfl

/-- Witness for C10 at the two-page fixture: the first appended page
carries an `items` field. -/
theorem thm_C10_success_requires_fields_witness :
    (jLookup (appendedD none (serverTwo 0)) "items").isSome = true :=
  (thm_C10_success_requires_fields.2.1 stEx serverTwo "questions" 1 none "default" []
    (fetch stEx serverTwo "questions" 1 none "default" [])
    ⟨0, .bool false, .num 2, .num 10, .num 9, .num 0, [.num 1, .num 2, .num 5, .num 6]⟩
    rfl rfl).1 0 (by decide)

end SA
